import Mathlib

/-!
Verification development for the AutoNewsC microservices (text summarization,
text-to-speech synthesis, video rendering).  The Python request handlers,
validators and heuristics of the repository are embedded shallowly as
executable Lean definitions.  External capability providers (the transformer
models, the TTS engine, the media toolchain, language detection, readability
metrics and the ROUGE scorer) are opaque third-party libraries in the source
and are modelled as function parameters; everything the repository itself
computes is translated directly.
-/

namespace AutoNews

attribute [local semireducible] Rat.mul Rat.inv Rat.add Rat.sub Rat.ofScientific

/-- Python's whitespace class: the characters matched by `\s` and treated as
separators by `str.split()` / `str.strip()`. -/
def isPyWs (c : Char) : Bool :=
  c = ' ' || c = '\t' || c = '\n' || c = '\r' || c = '\x0b' || c = '\x0c'

/-- Accumulator loop of Python `str.split()` with no argument: split on runs of
whitespace, dropping empty pieces.  `acc` holds the word being read, reversed. -/
def splitWAux : List Char → List Char → List (List Char)
  | [], acc => if acc = [] then [] else [acc.reverse]
  | c :: cs, acc =>
    if isPyWs c then
      if acc = [] then splitWAux cs [] else acc.reverse :: splitWAux cs []
    else
      splitWAux cs (c :: acc)

/-- Python `text.split()` (no separator argument) on a character list. -/
def splitW (l : List Char) : List (List Char) :=
  splitWAux l []

/-- Python `' '.join(ws)` on character-list words. -/
def joinW : List (List Char) → List Char
  | [] => []
  | [w] => w
  | w :: ws => w ++ ' ' :: joinW ws

/-- Python `text.split()` at the `String` level, as used for word counts
(`len(text.split())`). -/
def pyWords (s : String) : List String :=
  (splitW s.data).map fun w => String.mk w

/-- Python `' '.join(text.split())`: the whitespace-normalization step shared by
the TTS request validator and the TTS `preprocess_text`. -/
def pyJoinSplit (s : String) : String :=
  String.mk (joinW (splitW s.data))

@[simp]
theorem joinW_nil : joinW [] = [] := rfl

@[simp]
theorem joinW_single (w : List Char) : joinW [w] = w := rfl

theorem joinW_cons₂ (w x : List Char) (ys : List (List Char)) :
    joinW (w :: x :: ys) = w ++ ' ' :: joinW (x :: ys) := rfl

theorem splitWAux_append_word (w : List Char) (hw : ∀ c ∈ w, isPyWs c = false) :
    ∀ l acc : List Char, splitWAux (w ++ l) acc = splitWAux l (w.reverse ++ acc) := by
  induction w with
  | nil => intro l acc; simp
  | cons c cs ih =>
    intro l acc
    have hc : isPyWs c = false := hw c (by simp)
    have hcs : ∀ x ∈ cs, isPyWs x = false := fun x hx => hw x (by simp [hx])
    simp only [List.cons_append, splitWAux, hc, Bool.false_eq_true, if_false]
    exact (ih hcs l (c :: acc)).trans (by simp)

theorem splitWAux_words (l : List Char) :
    ∀ acc, (∀ c ∈ acc, isPyWs c = false) →
      ∀ w ∈ splitWAux l acc, w ≠ [] ∧ ∀ c ∈ w, isPyWs c = false := by
  induction l with
  | nil =>
    intro acc hacc w hw
    by_cases h : acc = []
    · simp [splitWAux, h] at hw
    · rw [splitWAux, if_neg h] at hw
      rw [List.mem_singleton] at hw
      subst hw
      refine ⟨by simpa using h, fun c hc => hacc c (List.mem_reverse.mp hc)⟩
  | cons a as ih =>
    intro acc hacc w hw
    by_cases ha : isPyWs a = true
    · by_cases h : acc = []
      · rw [splitWAux, if_pos ha, if_pos h] at hw
        exact ih [] (by simp) w hw
      · rw [splitWAux, if_pos ha, if_neg h] at hw
        rcases List.mem_cons.mp hw with h1 | h1
        · subst h1
          refine ⟨by simpa using h, fun c hc => hacc c (List.mem_reverse.mp hc)⟩
        · exact ih [] (by simp) w h1
    · have ha' : isPyWs a = false := by simpa using ha
      simp only [splitWAux, ha', Bool.false_eq_true, if_false] at hw
      refine ih (a :: acc) ?_ w hw
      intro c hc
      rcases List.mem_cons.mp hc with h1 | h1
      · subst h1; exact ha'
      · exact hacc c h1

theorem splitW_words (l : List Char) :
    ∀ w ∈ splitW l, w ≠ [] ∧ ∀ c ∈ w, isPyWs c = false :=
  splitWAux_words l [] (by simp)

theorem splitW_joinW (ws : List (List Char))
    (h : ∀ w ∈ ws, w ≠ [] ∧ ∀ c ∈ w, isPyWs c = false) :
    splitW (joinW ws) = ws := by
  induction ws with
  | nil => rfl
  | cons w rest ih =>
    obtain ⟨hne, hfree⟩ := h w (by simp)
    cases rest with
    | nil =>
      show splitW w = [w]
      calc splitW w
          = splitWAux (w ++ []) [] := by simp [splitW]
        _ = splitWAux [] (w.reverse ++ []) := splitWAux_append_word w hfree [] []
        _ = [w] := by simp [splitWAux, hne]
    | cons w2 ws2 =>
      have hrest : ∀ x ∈ w2 :: ws2, x ≠ [] ∧ ∀ c ∈ x, isPyWs c = false :=
        fun x hx => h x (by simp [hx])
      rw [joinW_cons₂, splitW, splitWAux_append_word w hfree]
      have hsp : isPyWs ' ' = true := rfl
      have hrev : ¬(w.reverse = []) := by simpa using hne
      rw [splitWAux, if_pos hsp, List.append_nil, if_neg hrev, List.reverse_reverse]
      rw [show splitWAux (joinW (w2 :: ws2)) [] = splitW (joinW (w2 :: ws2)) from rfl,
        ih hrest]

/-- The TTS whitespace-normalization step `' '.join(text.split())` is
idempotent. -/
theorem pyJoinSplit_idem (s : String) : pyJoinSplit (pyJoinSplit s) = pyJoinSplit s := by
  show String.mk (joinW (splitW (String.mk (joinW (splitW s.data))).data)) =
    String.mk (joinW (splitW s.data))
  rw [show (String.mk (joinW (splitW s.data))).data = joinW (splitW s.data) from rfl,
    splitW_joinW _ (splitW_words s.data)]

/-- Python `text.strip()` on a character list: drop whitespace from both ends. -/
def stripL (l : List Char) : List Char :=
  List.rdropWhile isPyWs (l.dropWhile isPyWs)

/-- Python `text.strip()`. -/
def pyStrip (s : String) : String :=
  String.mk (stripL s.data)

/-- `re.sub(r'\s+', ' ', text)`: replace each maximal whitespace run by a single
space.  The Boolean flag records whether the previous character was whitespace. -/
def collapseWsAux : Bool → List Char → List Char
  | _, [] => []
  | prevWs, c :: cs =>
    if isPyWs c then
      if prevWs then collapseWsAux true cs else ' ' :: collapseWsAux true cs
    else
      c :: collapseWsAux false cs

/-- First statement of the summarizer's `preprocess_text`:
`re.sub(r'\s+', ' ', text).strip()`. -/
def sumNormalizeWs (s : String) : String :=
  String.mk (stripL (collapseWsAux false s.data))

/-- Two adjacent characters are never both whitespace. -/
def WsApart (a b : Char) : Prop :=
  isPyWs a = false ∨ isPyWs b = false

theorem collapse_ws_space (l : List Char) :
    ∀ b, ∀ c ∈ collapseWsAux b l, isPyWs c = true → c = ' ' := by
  induction l with
  | nil => intro b c hc; simp [collapseWsAux] at hc
  | cons a as ih =>
    intro b c hc hws
    by_cases ha : isPyWs a = true
    · cases b with
      | true =>
        rw [collapseWsAux, if_pos ha, if_pos rfl] at hc
        exact ih true c hc hws
      | false =>
        rw [collapseWsAux, if_pos ha, if_neg (by simp)] at hc
        rcases List.mem_cons.mp hc with h1 | h1
        · exact h1
        · exact ih true c h1 hws
    · have ha' : isPyWs a = false := by simpa using ha
      rw [collapseWsAux, if_neg (by simp [ha'])] at hc
      rcases List.mem_cons.mp hc with h1 | h1
      · subst h1; exact absurd hws (by simp [ha'])
      · exact ih false c h1 hws

theorem collapse_true_head (l : List Char) :
    ∀ c, (collapseWsAux true l).head? = some c → isPyWs c = false := by
  induction l with
  | nil => intro c hc; simp [collapseWsAux] at hc
  | cons a as ih =>
    intro c hc
    by_cases ha : isPyWs a = true
    · rw [collapseWsAux, if_pos ha, if_pos rfl] at hc
      exact ih c hc
    · have ha' : isPyWs a = false := by simpa using ha
      rw [collapseWsAux, if_neg (by simp [ha'])] at hc
      simp only [List.head?_cons, Option.some_inj] at hc
      subst hc; exact ha'

theorem collapse_chain (l : List Char) :
    ∀ b, List.Chain' WsApart (collapseWsAux b l) := by
  induction l with
  | nil => intro b; simp [collapseWsAux]
  | cons a as ih =>
    intro b
    by_cases ha : isPyWs a = true
    · cases b with
      | true =>
        rw [collapseWsAux, if_pos ha, if_pos rfl]
        exact ih true
      | false =>
        rw [collapseWsAux, if_pos ha, if_neg (by simp)]
        rw [List.chain'_cons']
        refine ⟨fun y hy => Or.inr (collapse_true_head as y (Option.mem_def.mp hy)), ih true⟩
    · have ha' : isPyWs a = false := by simpa using ha
      rw [collapseWsAux, if_neg (by simp [ha'])]
      rw [List.chain'_cons']
      exact ⟨fun y _ => Or.inl ha', ih false⟩

theorem collapse_fix (l : List Char)
    (hsp : ∀ c ∈ l, isPyWs c = true → c = ' ')
    (hch : List.Chain' WsApart l) :
    collapseWsAux false l = l ∧
      ((∀ c, l.head? = some c → isPyWs c = false) → collapseWsAux true l = l) := by
  induction l with
  | nil => exact ⟨rfl, fun _ => rfl⟩
  | cons a as ih =>
    have hsp' : ∀ c ∈ as, isPyWs c = true → c = ' ' := fun c hc => hsp c (by simp [hc])
    have hch' : List.Chain' WsApart as := (List.chain'_cons'.mp hch).2
    have hhead : ∀ y ∈ as.head?, WsApart a y := (List.chain'_cons'.mp hch).1
    by_cases ha : isPyWs a = true
    · have haa : a = ' ' := hsp a (by simp) ha
      have htrue : collapseWsAux true as = as := by
        refine (ih hsp' hch').2 ?_
        intro c hc
        rcases hhead c (Option.mem_def.mpr hc) with h | h
        · exact absurd ha (by simp [h])
        · exact h
      constructor
      · rw [collapseWsAux, if_pos ha, if_neg (by simp), htrue, haa]
      · intro hhd
        exact absurd (hhd a rfl) (by simp [ha])
    · have ha' : isPyWs a = false := by simpa using ha
      have hf := (ih hsp' hch').1
      constructor
      · rw [collapseWsAux, if_neg (by simp [ha']), hf]
      · intro _
        rw [collapseWsAux, if_neg (by simp [ha']), hf]

theorem rdropWhile_isPre (p : Char → Bool) (l : List Char) :
    List.rdropWhile p l <+: l := by
  rw [← List.reverse_suffix, List.rdropWhile, List.reverse_reverse]
  exact List.dropWhile_suffix p

theorem stripL_subset (l : List Char) : ∀ c ∈ stripL l, c ∈ l := by
  intro c hc
  have h1 : stripL l <+: l.dropWhile isPyWs := rdropWhile_isPre _ _
  have h2 : l.dropWhile isPyWs <:+ l := List.dropWhile_suffix _
  exact h2.sublist.subset (h1.sublist.subset hc)

theorem stripL_chain (l : List Char) (h : List.Chain' WsApart l) :
    List.Chain' WsApart (stripL l) := by
  have h2 := List.Chain'.suffix h (List.dropWhile_suffix isPyWs)
  obtain ⟨t, ht⟩ := rdropWhile_isPre isPyWs (l.dropWhile isPyWs)
  rw [← ht] at h2
  exact List.Chain'.left_of_append h2

theorem stripL_head (l : List Char) :
    ∀ c, (stripL l).head? = some c → isPyWs c = false := by
  intro c hc
  have hpre : stripL l <+: l.dropWhile isPyWs := rdropWhile_isPre _ _
  obtain ⟨t, ht⟩ := hpre
  have hdw : (l.dropWhile isPyWs).head? = some c := by
    rw [← ht]
    cases h : stripL l with
    | nil => rw [h] at hc; simp at hc
    | cons x xs =>
      rw [h] at hc
      simp only [List.head?_cons, Option.some_inj] at hc
      subst hc
      simp [h]
  have h2 := List.head?_dropWhile_not isPyWs l
  rw [hdw] at h2
  exact h2

theorem stripL_last (l : List Char) (h : stripL l ≠ []) :
    isPyWs ((stripL l).getLast h) = false := by
  have := List.rdropWhile_last_not isPyWs (l.dropWhile isPyWs) h
  simpa using this

theorem stripL_fix (l : List Char)
    (hh : ∀ c, l.head? = some c → isPyWs c = false)
    (hl : ∀ h : l ≠ [], isPyWs (l.getLast h) = false) :
    stripL l = l := by
  have h1 : l.dropWhile isPyWs = l := by
    cases l with
    | nil => rfl
    | cons a as =>
      rw [List.dropWhile_cons, if_neg (by simp [hh a rfl])]
  rw [stripL, h1, List.rdropWhile_eq_self_iff]
  intro hne
  simpa using hl hne

theorem collapseStrip_idem (l : List Char) :
    stripL (collapseWsAux false (stripL (collapseWsAux false l))) =
      stripL (collapseWsAux false l) := by
  set m := stripL (collapseWsAux false l) with hm
  have hspace : ∀ c ∈ m, isPyWs c = true → c = ' ' :=
    fun c hc => collapse_ws_space l false c (stripL_subset _ c hc)
  have hchain : List.Chain' WsApart m := stripL_chain _ (collapse_chain l false)
  have hcol : collapseWsAux false m = m := (collapse_fix m hspace hchain).1
  rw [hcol]
  exact stripL_fix m (stripL_head _) (stripL_last _)

/-- The summarizer's whitespace-normalization step is idempotent. -/
theorem sumNormalizeWs_idem (s : String) :
    sumNormalizeWs (sumNormalizeWs s) = sumNormalizeWs s := by
  show String.mk (stripL (collapseWsAux false (stripL (collapseWsAux false s.data)))) =
    String.mk (stripL (collapseWsAux false s.data))
  rw [collapseStrip_idem]

/-- Structural recursion (on a fuel bound that dominates the list length) for
Python `text.replace(pat, rep)`: replace each non-overlapping occurrence of
`pat`, scanning left to right.  Each step shortens the list, so the fuel is
never exhausted when it starts at the list length. -/
def replLF (pat rep : List Char) : Nat → List Char → List Char
  | _, [] => []
  | 0, l => l
  | fuel + 1, c :: cs =>
    if pat ≠ [] ∧ pat.isPrefixOf (c :: cs) = true then
      rep ++ replLF pat rep fuel ((c :: cs).drop pat.length)
    else
      c :: replLF pat rep fuel cs

/-- Python `text.replace(pat, rep)` on character lists.  All patterns appearing
in the source are non-empty; an empty pattern is treated as a no-op. -/
def replL (pat rep l : List Char) : List Char :=
  replLF pat rep l.length l

/-- Python `text.replace(pat, rep)` at the `String` level. -/
def pyReplace (s pat rep : String) : String :=
  String.mk (replL pat.data rep.data s.data)

/-- Python `text.split(sep)` with a single-character separator: split at every
occurrence, keeping empty pieces. -/
def splitOnCharL (sep : Char) : List Char → List (List Char)
  | [] => [[]]
  | c :: cs =>
    if c = sep then [] :: splitOnCharL sep cs
    else
      match splitOnCharL sep cs with
      | [] => [[c]]
      | p :: ps => (c :: p) :: ps

/-- Characters matched by the URL-body class of the summarizer's URL regex
(`[a-zA-Z]`, `[0-9]`, `[$-_@.&+]`, `[!*\\(\\),]`, percent escapes); the `$-_`
range already covers the digits and most punctuation including `%`. -/
def isUrlChar (c : Char) : Bool :=
  c.isAlpha || ('$' ≤ c && c ≤ '_') || c = '!'

/-- Match the URL regex `http[s]?://(...)+` at the head of `l`; on success
return the remainder after the greedy match. -/
def tryStripUrl (l : List Char) : Option (List Char) :=
  if ("http://".data).isPrefixOf l then
    if (l.drop 7).takeWhile isUrlChar = [] then none
    else some ((l.drop 7).dropWhile isUrlChar)
  else if ("https://".data).isPrefixOf l then
    if (l.drop 8).takeWhile isUrlChar = [] then none
    else some ((l.drop 8).dropWhile isUrlChar)
  else none

/-- Structural (fuel-bounded) scan for `re.sub(URL_REGEX, '', text)`: each
step shortens the list, so the fuel is never exhausted when it starts at the
list length. -/
def stripUrlsF : Nat → List Char → List Char
  | _, [] => []
  | 0, l => l
  | fuel + 1, c :: cs =>
    match tryStripUrl (c :: cs) with
    | some rest => stripUrlsF fuel rest
    | none => c :: stripUrlsF fuel cs

/-- `re.sub(URL_REGEX, '', text)`: scan left to right, removing every match. -/
def stripUrlsL (l : List Char) : List Char :=
  stripUrlsF l.length l

/-- `\w` in the summarizer's character-filter regex. -/
def isWordChar (c : Char) : Bool :=
  c.isAlphanum || c = '_'

/-- Characters kept by the summarizer's special-character filter
`re.sub(r'[^\w\s\.\,\!\?\;\:\-\(\)\"\']+', '', text)`. -/
def isAllowedSumChar (c : Char) : Bool :=
  isWordChar c || isPyWs c || c = '.' || c = ',' || c = '!' || c = '?' || c = ';' ||
    c = ':' || c = '-' || c = '(' || c = ')' || c = '"' || c = '\''

/-- The summarizer's `preprocess_text`: collapse whitespace and strip, remove
disallowed characters, remove URLs. -/
def sum_preprocess_text (s : String) : String :=
  let t1 := stripL (collapseWsAux false s.data)
  let t2 := t1.filter isAllowedSumChar
  String.mk (stripUrlsL t2)

/-- The per-punctuation "add pauses" replacements of the TTS `preprocess_text`,
in source order. -/
def ttsPunctuationSpacing : List (String × String) :=
  [(".", ". "), (",", ", "), (";", "; "), (":", ": "), ("!", "! "), ("?", "? ")]

/-- The abbreviation replacements of the TTS `preprocess_text`, in source
(dictionary insertion) order. -/
def ttsAbbreviations : List (String × String) :=
  [(" Dr.", " Doctor"), (" Mr.", " Mister"), (" Mrs.", " Missus"), (" Ms.", " Miss"),
    (" vs.", " versus"), (" etc.", " etcetera"), (" i.e.", " that is"),
    (" e.g.", " for example")]

/-- The TTS service's `preprocess_text`; `enablePreprocessing` is the
`ENABLE_PREPROCESSING` configuration flag (default `true`). -/
def tts_preprocess_text (enablePreprocessing : Bool) (text : String) : String :=
  if !enablePreprocessing then text
  else
    let t1 := pyJoinSplit text
    let t2 := ttsPunctuationSpacing.foldl (fun acc p => pyReplace acc p.1 p.2) t1
    let t3 := ttsAbbreviations.foldl (fun acc p => pyReplace acc p.1 p.2) t2
    pyStrip t3

/-- Python `text.endswith('.')`. -/
def endsWithDot (s : String) : Bool :=
  s.data.getLast? = some '.'

/-- Post-processing of the model's raw summary (`generate_summary`): strip, and
append a period when the stripped text does not already end with one. -/
def postprocessSummary (s : String) : String :=
  let t := pyStrip s
  if endsWithDot t then t else t ++ "."

/-- Comparator embedding Python's stable `list.sort(key=lambda x: x[1],
reverse=True)`: `a` may precede `b` exactly when `a`'s score is at least `b`'s;
stable insertion keeps equal-scored sentences in document order, as Timsort
does. -/
def scoreGe (a b : String × ℚ) : Prop :=
  b.2 ≤ a.2

instance : DecidableRel scoreGe :=
  fun a b => inferInstanceAs (Decidable (b.2 ≤ a.2))

instance : IsTotal (String × ℚ) scoreGe :=
  ⟨fun a b => le_total b.2 a.2⟩

instance : IsTrans (String × ℚ) scoreGe :=
  ⟨fun _ _ _ h1 h2 => le_trans h2 h1⟩

/-- Sentence-scoring loop of `extract_key_points`: a sentence with at least 5
words at index `i` among `n` tokenized sentences scores
`position_score * 0.7 + length_score * 0.3` with
`position_score = 1.0 - (i / n) * 0.3` and
`length_score = min(word_count / 20, 1.0)`. -/
def scoreSentences (sentences : List String) : List (String × ℚ) :=
  sentences.enum.filterMap fun p =>
    if 5 ≤ (pyWords p.2).length then
      let positionScore : ℚ := 1 - ((p.1 : ℚ) / (sentences.length : ℚ)) * (3 / 10)
      let lengthScore : ℚ := min (((pyWords p.2).length : ℚ) / 20) 1
      some (p.2, positionScore * (7 / 10) + lengthScore * (3 / 10))
    else none

/-- `extract_key_points`: score the tokenized sentences, sort by score
descending (stably), return the top `numPoints` sentences.  Sentence
tokenization (`nltk.sent_tokenize`) is an external library passed as a
parameter. -/
def extract_key_points (sentTokenize : String → List String) (text : String)
    (numPoints : Nat) : List String :=
  ((List.insertionSort scoreGe (scoreSentences (sentTokenize text))).take numPoints).map
    Prod.fst

/-- `calculate_quality_score`: the ROUGE scorer is an external library invoked
inside a `try` and is passed as a parameter returning the two F-measures
(`rouge1`, `rougeL`) or an exception.  An original with no words makes the
Python length-ratio computation raise `ZeroDivisionError`, which the same
`except` turns into the 0.5 default. -/
def calculate_quality_score (rouge : String → String → Except String (ℚ × ℚ))
    (original summary : String) : ℚ :=
  match rouge original summary with
  | Except.error _ => 1 / 2
  | Except.ok scores =>
    let rougeScore : ℚ := (scores.1 + scores.2) / 2
    let originalWords := (pyWords original).length
    if originalWords = 0 then 1 / 2
    else
      let lengthRatio : ℚ := ((pyWords summary).length : ℚ) / (originalWords : ℚ)
      let lengthScore := max 0 (min 1 (1 - |lengthRatio - 1 / 10| * 2))
      min 1 (max 0 (rougeScore * (7 / 10) + lengthScore * (3 / 10)))

/-!
## Cache keys

The services key their caches with `hashlib.md5(content.encode()).hexdigest()`.
MD5 is a fixed deterministic digest computed by an external library, and the
spec (§4.1) treats its collision probability as negligible, so the embedding
addresses cache entries by the digest's pre-image: two cache keys are equal in
the code exactly when the content strings below are equal.
-/

/-- `calculate_content_hash` (summarizer).  Defined in the source but never
called by any handler. -/
def calculate_content_hash (content : String) : String :=
  content

/-- `generate_file_hash` (TTS): digest pre-image `f"{text}_{voice_id}_{speed}"`. -/
def generate_file_hash (text voiceId : String) (speed : ℚ) : String :=
  text ++ "_" ++ voiceId ++ "_" ++ toString speed

/-- `generate_cache_key` (video pipeline): digest pre-image is the content
string assembled by the caller. -/
def generate_cache_key (content : String) : String :=
  content

/-- `SummarizeRequest` (pydantic model), optional fields resolved to their
declared defaults. -/
structure SummarizeRequest where
  title : String
  content : String
  length_hint : Int
  language : String
  style : String

/-- `TTSRequest` (pydantic model), optional fields resolved to their declared
defaults.  `sample_rate` keeps its `Optional[int]` type: an explicit `null`
skips the numeric bounds and later falls back to the generated file's rate. -/
structure TTSRequest where
  text : String
  voice_id : String
  speed : ℚ
  pitch : ℚ
  volume : ℚ
  sample_rate : Option Int
  format : String
  language : String
  emotion : String

/-- `VideoRenderRequest` (pydantic model); fields unused by `generate_video`
(background music, logo, brand colors, subtitle style) are omitted. -/
structure VideoRenderRequest where
  summary_text : String
  audio_url : String
  title : String
  theme : String
  duration : Option ℚ
  images : List String

/-- One pydantic field error: (field name, message). -/
abbrev FieldError := String × String

/-- Declarative validation of `SummarizeRequest`: pydantic checks each field's
declared constraints independently and collects the failures; the custom
word-count validator for `content` runs only when the field's length
constraints hold. -/
def validateSummarizeRequest (r : SummarizeRequest) : List FieldError :=
  (if r.title.length < 1 then
    [("title", "ensure this value has at least 1 characters")] else []) ++
  (if 200 < r.title.length then
    [("title", "ensure this value has at most 200 characters")] else []) ++
  (if r.content.length < 100 then
    [("content", "ensure this value has at least 100 characters")]
   else if 10000 < r.content.length then
    [("content", "ensure this value has at most 10000 characters")]
   else if (pyWords r.content).length < 20 then
    [("content", "Content must have at least 20 words")]
   else []) ++
  (if r.length_hint < 30 then
    [("length_hint", "ensure this value is greater than or equal to 30")] else []) ++
  (if 300 < r.length_hint then
    [("length_hint", "ensure this value is less than or equal to 300")] else []) ++
  (if r.language.length < 2 then
    [("language", "ensure this value has at least 2 characters")] else []) ++
  (if 2 < r.language.length then
    [("language", "ensure this value has at most 2 characters")] else [])

/-- The field errors pydantic collects for a `TTSRequest`.  The custom `text`
validator runs only when the field's length constraints hold and rejects
whitespace-only text. -/
def ttsValidationErrors (r : TTSRequest) : List FieldError :=
  (if r.text.length < 1 then
    [("text", "ensure this value has at least 1 characters")] else []) ++
  (if 1000 < r.text.length then
    [("text", "ensure this value has at most 1000 characters")] else []) ++
  (if r.text.length < 1 ∨ 1000 < r.text.length then []
   else if pyStrip r.text = "" then [("text", "Text cannot be empty")] else []) ++
  (if r.speed < 1 / 2 then
    [("speed", "ensure this value is greater than or equal to 0.5")] else []) ++
  (if 2 < r.speed then
    [("speed", "ensure this value is less than or equal to 2.0")] else []) ++
  (if r.pitch < 1 / 2 then
    [("pitch", "ensure this value is greater than or equal to 0.5")] else []) ++
  (if 2 < r.pitch then
    [("pitch", "ensure this value is less than or equal to 2.0")] else []) ++
  (if r.volume < 1 / 10 then
    [("volume", "ensure this value is greater than or equal to 0.1")] else []) ++
  (if 2 < r.volume then
    [("volume", "ensure this value is less than or equal to 2.0")] else []) ++
  (match r.sample_rate with
   | none => []
   | some n =>
     (if n < 8000 then
       [("sample_rate", "ensure this value is greater than or equal to 8000")] else []) ++
     (if 48000 < n then
       [("sample_rate", "ensure this value is less than or equal to 48000")] else []))

/-- Declarative validation of `TTSRequest`: on success the returned request
carries the text normalized by the validator (`' '.join(v.split())`). -/
def validateTTSRequest (r : TTSRequest) : Except (List FieldError) TTSRequest :=
  if ttsValidationErrors r = [] then Except.ok { r with text := pyJoinSplit r.text }
  else Except.error (ttsValidationErrors r)

/-- Configuration of the summarizer service (`Config`). -/
structure SummarizerConfig where
  MODEL_NAME : String
  FALLBACK_MODEL : String
  MAX_LENGTH : Int
  MIN_LENGTH : Int

/-- The summarizer configuration defaults. -/
def defaultSummarizerConfig : SummarizerConfig :=
  { MODEL_NAME := "facebook/bart-large-cnn", FALLBACK_MODEL := "t5-small",
    MAX_LENGTH := 150, MIN_LENGTH := 30 }

/-- External capabilities used by `generate_summary`: the two summarization
pipelines (called with text, `max_length`, `min_length`), the ROUGE scorer,
language detection, the readability metrics and the sentence tokenizer. -/
structure SummarizerEnv where
  primary : String → Int → Int → Except String String
  fallback : String → Int → Int → Except String String
  rouge : String → String → Except String (ℚ × ℚ)
  detectLang : String → Except String String
  fleschEase : String → ℚ
  fleschKincaid : String → ℚ
  sentTokenize : String → List String

/-- The response metadata map: per-article statistics on success, the error
string in a batch placeholder. -/
inductive SummaryMetadata where
  | stats (original_length : Nat) (compression_ratio : ℚ)
  | failed (error : String)

/-- `SummarizeResponse` (wall-clock processing time and timestamps are clock
measurements and are omitted). -/
structure SummarizeResponse where
  summary : String
  length : Nat
  reading_level : ℚ × ℚ
  quality_score : ℚ
  model_used : String
  language_detected : String
  key_points : List String
  metadata : SummaryMetadata

/-- Outcome of `generate_summary`: the HTTP-level result together with
invocation counters for the two pipelines. -/
structure SummaryOutcome where
  response : Except (Nat × String) SummarizeResponse
  primaryCalls : Nat
  fallbackCalls : Nat

/-- Tail of `generate_summary` after a pipeline succeeded: post-process the
summary, compute quality, readability, key points and metadata.  A
`clean_content` with zero words makes the Python `compression_ratio`
computation raise `ZeroDivisionError`, which the handler's outer `except`
turns into a 500. -/
def finishSummary (env : SummarizerEnv) (clean_content detected : String)
    (content_words : Nat) (rawSummary modelUsed : String) :
    Except (Nat × String) SummarizeResponse :=
  let summary_text := postprocessSummary rawSummary
  if content_words = 0 then
    Except.error (500, "Summary generation failed: division by zero")
  else
    Except.ok
      { summary := summary_text
        length := (pyWords summary_text).length
        reading_level := (env.fleschEase summary_text, env.fleschKincaid summary_text)
        quality_score := calculate_quality_score env.rouge clean_content summary_text
        model_used := modelUsed
        language_detected := detected
        key_points := extract_key_points env.sentTokenize clean_content 3
        metadata := SummaryMetadata.stats content_words
          (((pyWords summary_text).length : ℚ) / (content_words : ℚ)) }

/-- `clean_content` in `generate_summary`. -/
def cleanContentOf (req : SummarizeRequest) : String :=
  sum_preprocess_text req.content

/-- `full_text` in `generate_summary`. -/
def fullTextOf (req : SummarizeRequest) : String :=
  req.title ++ ". " ++ cleanContentOf req

/-- `content_words` in `generate_summary`. -/
def contentWordsOf (req : SummarizeRequest) : Nat :=
  (pyWords (cleanContentOf req)).length

/-- `target_length` in `generate_summary`
(`min(request.length_hint, max(30, content_words // 10))`). -/
def targetLengthOf (req : SummarizeRequest) : Int :=
  min req.length_hint (max 30 ((contentWordsOf req : Int) / 10))

/-- `detected_lang` in `generate_summary`: `langdetect` failures map to
`"unknown"`. -/
def detectedLangOf (env : SummarizerEnv) (req : SummarizeRequest) : String :=
  match env.detectLang (fullTextOf req) with
  | Except.ok l => l
  | Except.error _ => "unknown"

/-- `generate_summary`.  The summarizer performs no cache I/O whatsoever:
`cacheDir` records the state of the service's cache directory purely so that
the handler's independence from it is expressible — no branch reads it. -/
def generate_summary (cfg : SummarizerConfig) (env : SummarizerEnv)
    (cacheDir : List (String × String)) (req : SummarizeRequest) : SummaryOutcome :=
  match env.primary (fullTextOf req) (min (targetLengthOf req + 50) cfg.MAX_LENGTH)
      (max (targetLengthOf req - 20) cfg.MIN_LENGTH) with
  | Except.ok raw =>
    { response := finishSummary env (cleanContentOf req) (detectedLangOf env req)
        (contentWordsOf req) raw cfg.MODEL_NAME
      primaryCalls := 1
      fallbackCalls := 0 }
  | Except.error _ =>
    match env.fallback (fullTextOf req) (targetLengthOf req + 30)
        (max (targetLengthOf req - 10) 20) with
    | Except.ok raw =>
      { response := finishSummary env (cleanContentOf req) (detectedLangOf env req)
          (contentWordsOf req) raw cfg.FALLBACK_MODEL
        primaryCalls := 1
        fallbackCalls := 1 }
    | Except.error e =>
      { response := Except.error (500, "Summary generation failed: " ++ e)
        primaryCalls := 1
        fallbackCalls := 1 }

/-- The placeholder entry `summarize_batch` substitutes for a failed item. -/
def errorSummarizeResponse (msg : String) : SummarizeResponse :=
  { summary := "Error processing article: " ++ msg
    length := 0
    reading_level := (0, 0)
    quality_score := 0
    model_used := "error"
    language_detected := "unknown"
    key_points := []
    metadata := SummaryMetadata.failed msg }

/-- `summarize_batch`: run every article and substitute a placeholder error
entry for each failed item. -/
def summarize_batch (cfg : SummarizerConfig) (env : SummarizerEnv)
    (cacheDir : List (String × String)) (articles : List SummarizeRequest) :
    Except (Nat × String) (List SummarizeResponse) :=
  if 10 < articles.length then Except.error (400, "Maximum 10 articles per batch")
  else
    Except.ok (articles.map fun a =>
      match (generate_summary cfg env cacheDir a).response with
      | Except.ok r => r
      | Except.error e => errorSummarizeResponse e.2)

/-- The cache filename `generate_speech` derives for a request
(`f"{cache_key}.{format}"`). -/
def ttsCacheFileName (enablePreprocessing : Bool) (req : TTSRequest) : String :=
  generate_file_hash (tts_preprocess_text enablePreprocessing req.text) req.voice_id
    req.speed ++ "." ++ req.format

/-- An audio artifact: samples plus the rate at which the file is written. -/
structure Audio where
  samples : List ℚ
  sampleRate : Int

/-- External capabilities used by `generate_speech`: the Coqui TTS engine and
the pydub/numpy audio post-processing chain (`postprocess_audio`). -/
structure TTSEnv where
  tts : String → Except String Audio
  post : List ℚ → Int → ℚ → ℚ → ℚ → List ℚ

/-- `TTSResponse` (file size and wall-clock processing time are
filesystem/clock measurements and are omitted). -/
structure TTSResponse where
  audio_url : String
  duration : ℚ
  sample_rate : Int
  format : String
  voice_used : String
  cached : Bool
  text_length : Nat

/-- Outcome of `generate_speech`: the HTTP-level result, the cache directory
after the call, and the number of TTS-engine invocations. -/
structure SpeechOutcome where
  response : Except (Nat × String) TTSResponse
  cacheDir : List (String × Audio)
  ttsCalls : Nat

/-- `generate_speech`: preprocess, derive the cache key, serve a cache hit
without invoking the engine, otherwise synthesize, post-process and store the
artifact under the key before responding.  `request.sample_rate or sample_rate`
follows Python truthiness (`None`/`0` fall back to the generated file's rate). -/
def generate_speech (enablePreprocessing : Bool) (env : TTSEnv)
    (cacheDir : List (String × Audio)) (req : TTSRequest) : SpeechOutcome :=
  let processed := tts_preprocess_text enablePreprocessing req.text
  let fname := ttsCacheFileName enablePreprocessing req
  match cacheDir.lookup fname with
  | some art =>
    { response := Except.ok
        { audio_url := "/audio/" ++ fname
          duration := (art.samples.length : ℚ) / (art.sampleRate : ℚ)
          sample_rate := art.sampleRate
          format := req.format
          voice_used := req.voice_id
          cached := true
          text_length := processed.length }
      cacheDir := cacheDir
      ttsCalls := 0 }
  | none =>
    match env.tts processed with
    | Except.error e =>
      { response := Except.error (500, "Speech generation failed: " ++ e)
        cacheDir := cacheDir
        ttsCalls := 1 }
    | Except.ok wav =>
      let processedAudio := env.post wav.samples wav.sampleRate req.speed req.pitch
        req.volume
      let outRate : Int := match req.sample_rate with
        | none => wav.sampleRate
        | some n => if n = 0 then wav.sampleRate else n
      let stored : Audio := { samples := processedAudio, sampleRate := outRate }
      { response := Except.ok
          { audio_url := "/audio/" ++ fname
            duration := (processedAudio.length : ℚ) / (outRate : ℚ)
            sample_rate := outRate
            format := req.format
            voice_used := req.voice_id
            cached := false
            text_length := processed.length }
        cacheDir := (fname, stored) :: cacheDir
        ttsCalls := 1 }

/-- The request `batch_text_to_speech` builds for each text; constructing the
pydantic model runs the `text` validator, which normalizes whitespace. -/
def mkBatchTTSRequest (text voiceId : String) (speed : ℚ) : TTSRequest :=
  { text := pyJoinSplit text, voice_id := voiceId, speed := speed, pitch := 1,
    volume := 1, sample_rate := some 22050, format := "wav", language := "en",
    emotion := "neutral" }

/-- The result loop of `batch_text_to_speech`: abort with a 500 at the first
failed item, discarding every per-item result. -/
def collectTTSResults : Nat → List (Except (Nat × String) TTSResponse) →
    Except (Nat × String) (List TTSResponse)
  | _, [] => Except.ok []
  | i, r :: rs =>
    match r with
    | Except.error e =>
      Except.error (500, "Failed to process text " ++ toString i ++ ": " ++ e.2)
    | Except.ok resp =>
      match collectTTSResults (i + 1) rs with
      | Except.error e => Except.error e
      | Except.ok l => Except.ok (resp :: l)

/-- `batch_text_to_speech`: every item runs `generate_speech` against the same
initial cache state (the items are gathered concurrently), then the first
failure aborts the whole batch. -/
def batch_text_to_speech (enablePreprocessing : Bool) (env : TTSEnv)
    (cacheDir : List (String × Audio)) (texts : List String) (voiceId : String)
    (speed : ℚ) : Except (Nat × String) (List TTSResponse) :=
  if 5 < texts.length then Except.error (400, "Maximum 5 texts per batch")
  else
    collectTTSResults 0 (texts.map fun t =>
      (generate_speech enablePreprocessing env cacheDir
        (mkBatchTTSRequest t voiceId speed)).response)

/-- `cache_key` in `generate_video`: digest pre-image
`f"{summary_text}_{audio_url}_{theme}"`. -/
def videoCacheKeyOf (req : VideoRenderRequest) : String :=
  generate_cache_key (req.summary_text ++ "_" ++ req.audio_url ++ "_" ++ req.theme)

/-- The output filename `generate_video` derives for a request
(`f"{cache_key}.mp4"`). -/
def videoCacheFileName (req : VideoRenderRequest) : String :=
  videoCacheKeyOf req ++ ".mp4"

/-- The subtitle filename `generate_video` derives for a request
(`f"{cache_key}.srt"`). -/
def videoSrtFileName (req : VideoRenderRequest) : String :=
  videoCacheKeyOf req ++ ".srt"

/-- A rendered video artifact on disk; the hit path reads back its duration
(`VideoFileClip(...).duration`). -/
structure VideoArtifact where
  duration : ℚ

/-- One subtitle overlay clip produced by `create_subtitle_clips`
(`set_start(start)`, `set_duration(end - start)`). -/
structure SubtitleClip where
  text : String
  startTime : ℚ
  stopTime : ℚ

/-- One SRT entry produced by `create_srt_subtitles`. -/
structure SrtEntry where
  index : Nat
  startTime : ℚ
  stopTime : ℚ
  text : String

/-- Sentence splitting shared by `create_subtitle_clips` and
`create_srt_subtitles`:
`text.replace('!', '.').replace('?', '.').split('.')`, each piece stripped,
empty pieces dropped. -/
def splitVideoSentences (text : String) : List String :=
  ((splitOnCharL '.' (replL ['?'] ['.'] (replL ['!'] ['.'] text.data))).map
    fun w => pyStrip (String.mk w)).filter fun s => s ≠ ""

/-- `create_subtitle_clips`: evenly time-slice the sentences across the audio
duration in original order; sentences of length ≤ 3 characters produce no
clip.  An empty sentence list yields no clips. -/
def create_subtitle_clips (text : String) (audioDuration : ℚ) : List SubtitleClip :=
  let sentences := splitVideoSentences text
  if sentences = [] then []
  else
    let timePerSentence := audioDuration / (sentences.length : ℚ)
    sentences.enum.filterMap fun p =>
      if 3 < p.2.length then
        some { text := p.2
               startTime := (p.1 : ℚ) * timePerSentence
               stopTime := min (((p.1 : ℚ) + 1) * timePerSentence) audioDuration }
      else none

/-- `create_srt_subtitles`, producing the entries written to the `.srt` file
(the file itself is written whenever the sentence list is non-empty). -/
def create_srt_subtitles (text : String) (audioDuration : ℚ) : List SrtEntry :=
  let sentences := splitVideoSentences text
  if sentences = [] then []
  else
    let timePerSentence := audioDuration / (sentences.length : ℚ)
    sentences.enum.filterMap fun p =>
      if 3 < p.2.length then
        some { index := p.1 + 1
               startTime := (p.1 : ℚ) * timePerSentence
               stopTime := min (((p.1 : ℚ) + 1) * timePerSentence) audioDuration
               text := p.2 }
      else none

/-- External capabilities used by `generate_video`: the audio download plus
`AudioFileClip` duration probe, per-image download/processing success
(failed images are skipped), and the MoviePy/FFmpeg `write_videofile` step. -/
structure VideoEnv where
  downloadAudio : String → Except String ℚ
  loadImage : String → Bool
  render : ℚ → Except String Unit

/-- `VideoResponse` (file size, wall-clock processing time and the
width-by-height resolution string are measurements/configuration echoes and
are omitted).  `subtitle_segments`/`images_used` are the metadata keys present
only on a miss. -/
structure VideoResponse where
  video_url : String
  thumbnail_url : String
  subtitle_url : Option String
  duration : ℚ
  cached : Bool
  subtitle_segments : Option Nat
  images_used : Option Nat

/-- Outcome of `generate_video`: the HTTP-level result, the output directory
(rendered videos and SRT files) after the call, and the number of render
invocations. -/
structure VideoOutcome where
  response : Except (Nat × String) VideoResponse
  outputDir : List (String × VideoArtifact)
  srtDir : List String
  renderCalls : Nat

/-- `generate_video`: derive the cache key from
`f"{summary_text}_{audio_url}_{theme}"`, serve an existing artifact without
rendering, otherwise download the audio, compose and render, write the
artifact under the key, and respond.  `request.duration or
audio_clip.duration` follows Python truthiness.  A download failure raises a
`HTTPException(400)` that the handler's own `except Exception` immediately
rewraps as a 500. -/
def generate_video (env : VideoEnv) (outputDir : List (String × VideoArtifact))
    (srtDir : List String) (req : VideoRenderRequest) : VideoOutcome :=
  let cache_key := videoCacheKeyOf req
  let videoName := videoCacheFileName req
  let srtName := videoSrtFileName req
  match outputDir.lookup videoName with
  | some art =>
    { response := Except.ok
        { video_url := "/video/" ++ videoName
          thumbnail_url := "/video/" ++ cache_key ++ "_thumb.jpg"
          subtitle_url := if srtName ∈ srtDir then some ("/video/" ++ srtName) else none
          duration := art.duration
          cached := true
          subtitle_segments := none
          images_used := none }
      outputDir := outputDir
      srtDir := srtDir
      renderCalls := 0 }
  | none =>
    match env.downloadAudio req.audio_url with
    | Except.error e =>
      { response := Except.error (500, "Video generation failed: " ++ e)
        outputDir := outputDir
        srtDir := srtDir
        renderCalls := 0 }
    | Except.ok audioDuration =>
      let video_duration := match req.duration with
        | none => audioDuration
        | some d => if d = 0 then audioDuration else d
      let image_clips := (req.images.take 5).countP env.loadImage
      let subtitle_clips := create_subtitle_clips req.summary_text video_duration
      match env.render video_duration with
      | Except.error e =>
        { response := Except.error (500, "Video generation failed: " ++ e)
          outputDir := outputDir
          srtDir := srtDir
          renderCalls := 1 }
      | Except.ok _ =>
        { response := Except.ok
            { video_url := "/video/" ++ videoName
              thumbnail_url := "/video/" ++ cache_key ++ "_thumb.jpg"
              subtitle_url := some ("/video/" ++ srtName)
              duration := video_duration
              cached := false
              subtitle_segments := some subtitle_clips.length
              images_used := some image_clips }
          outputDir := (videoName, { duration := video_duration }) :: outputDir
          srtDir := if splitVideoSentences req.summary_text = [] then srtDir
            else srtName :: srtDir
          renderCalls := 1 }

/-- Modelled from the spec: the HTTP framework's translation of a pydantic
`ValidationError` into a response is framework code outside this repository;
the spec (§6, §7) assigns validation violations a 400 client-error response
carrying field-level detail, and reserves 5xx for capability failures. -/
structure ApiError where
  status : Nat
  fields : List FieldError
  detail : String

/-- The client-error response for a validation failure. -/
def validationError (errs : List FieldError) : ApiError :=
  { status := 400, fields := errs, detail := "" }

/-- An `HTTPException` raised by a handler. -/
def httpError (code : Nat) (msg : String) : ApiError :=
  { status := code, fields := [], detail := msg }

/-- `POST /summarize`: validation, then the handler. -/
def summarize_endpoint (cfg : SummarizerConfig) (env : SummarizerEnv)
    (cacheDir : List (String × String)) (req : SummarizeRequest) :
    Except ApiError SummarizeResponse :=
  match validateSummarizeRequest req with
  | [] =>
    match (generate_summary cfg env cacheDir req).response with
    | Except.ok r => Except.ok r
    | Except.error e => Except.error (httpError e.1 e.2)
  | errs => Except.error (validationError errs)

/-- `POST /tts`: validation, then the handler. -/
def tts_endpoint (enablePreprocessing : Bool) (env : TTSEnv)
    (cacheDir : List (String × Audio)) (req : TTSRequest) :
    Except ApiError TTSResponse :=
  match validateTTSRequest req with
  | Except.error errs => Except.error (validationError errs)
  | Except.ok vreq =>
    match (generate_speech enablePreprocessing env cacheDir vreq).response with
    | Except.ok r => Except.ok r
    | Except.error e => Except.error (httpError e.1 e.2)

theorem stripL_idem (l : List Char) : stripL (stripL l) = stripL l :=
  stripL_fix (stripL l) (stripL_head l) (stripL_last l)

theorem stripL_append_dot (l : List Char) :
    stripL (stripL l ++ ['.']) = stripL l ++ ['.'] := by
  apply stripL_fix
  · intro c hc
    cases h : stripL l with
    | nil =>
      rw [h] at hc
      simp only [List.nil_append, List.head?_cons, Option.some_inj] at hc
      subst hc
      decide
    | cons x xs =>
      rw [h] at hc
      simp only [List.cons_append, List.head?_cons, Option.some_inj] at hc
      exact hc ▸ stripL_head l x (by rw [h]; rfl)
  · intro hne
    have h2 : (stripL l ++ ['.']).getLast? = some '.' := List.getLast?_concat _
    rw [List.getLast?_eq_getLast _ hne] at h2
    rw [Option.some_inj.mp h2]
    decide

theorem postprocessSummary_endsWithDot (s : String) :
    endsWithDot (postprocessSummary s) = true := by
  unfold postprocessSummary
  by_cases h : endsWithDot (pyStrip s) = true
  · rw [if_pos h]; exact h
  · rw [if_neg h]
    simp only [endsWithDot, decide_eq_true_eq]
    rw [show (pyStrip s ++ ".").data = (pyStrip s).data ++ ['.'] from rfl]
    exact List.getLast?_concat _

theorem pyStrip_postprocessSummary (s : String) :
    pyStrip (postprocessSummary s) = postprocessSummary s := by
  unfold postprocessSummary
  by_cases h : endsWithDot (pyStrip s) = true
  · rw [if_pos h]
    show String.mk (stripL (stripL s.data)) = String.mk (stripL s.data)
    rw [stripL_idem]
  · rw [if_neg h]
    show String.mk (stripL (stripL s.data ++ ['.'])) = pyStrip s ++ "."
    rw [stripL_append_dot]
    rfl

/-- C6 counterexample: neither service's text normalization is idempotent.
Summarizer: the character filter deletes the `'@'` of `"a @ b"`, leaving the
double space `"a  b"` that only a second pass collapses to `"a b"`.  TTS (with
preprocessing enabled, its default): the punctuation-spacing pass turns
`"a.b"` into `"a. b"`, and a second pass widens it to `"a.  b"`. -/
theorem c6_normalization_counterexample :
    sum_preprocess_text (sum_preprocess_text "a @ b") ≠ sum_preprocess_text "a @ b" ∧
      tts_preprocess_text true (tts_preprocess_text true "a.b") ≠
        tts_preprocess_text true "a.b" :=
  ⟨by decide, by decide⟩

/-- C6 amended: the whitespace-normalization first step of each service's
`preprocess_text` — `re.sub(r'\s+', ' ', text).strip()` in the summarizer and
`' '.join(text.split())` in the TTS service — is idempotent on every input.
The full normalization functions are not idempotent: the later
character-removal and punctuation-spacing steps can create double spaces that
only a second pass would collapse (see the counterexample). -/
theorem c6_ws_normalization_idempotent :
    (∀ s : String, sumNormalizeWs (sumNormalizeWs s) = sumNormalizeWs s) ∧
      ∀ s : String, pyJoinSplit (pyJoinSplit s) = pyJoinSplit s :=
  ⟨sumNormalizeWs_idem, pyJoinSplit_idem⟩

/-- C4: every sentence with at least 5 words at index `i` of `n` sentences
scores `0.7 * (1 - 0.3 * (i / n)) + 0.3 * min(word_count / 20, 1)`; shorter
sentences are excluded entirely; the returned ranking is in descending score
order; and on the three-sentence example (20 words / 3 words / 20 words) the
short sentence is dropped and the first sentence is ranked above the third. -/
theorem c4_key_point_scoring :
    (∀ sentences : List String,
      scoreSentences sentences = sentences.enum.filterMap fun p =>
        if 5 ≤ (pyWords p.2).length then
          some (p.2, (7 / 10) * (1 - (3 / 10) * ((p.1 : ℚ) / (sentences.length : ℚ))) +
            (3 / 10) * min (((pyWords p.2).length : ℚ) / 20) 1)
        else none) ∧
    (∀ (sentences : List String) (s : String) (q : ℚ),
      (s, q) ∈ scoreSentences sentences → 5 ≤ (pyWords s).length) ∧
    (∀ (sentences : List String) (n : Nat),
      ((List.insertionSort scoreGe (scoreSentences sentences)).take n).Pairwise
        fun a b => b.2 ≤ a.2) ∧
    extract_key_points
        (fun _ => ["alpha b c d e f g h i j k l m n o p q r s t", "x y z",
          "gamma b c d e f g h i j k l m n o p q r s t"]) "ignored" 3 =
      ["alpha b c d e f g h i j k l m n o p q r s t",
        "gamma b c d e f g h i j k l m n o p q r s t"] := by
  refine ⟨?_, ?_, ?_, by decide⟩
  · intro sentences
    unfold scoreSentences
    apply List.filterMap_congr
    intro p _
    by_cases h : 5 ≤ (pyWords p.2).length
    · rw [if_pos h, if_pos h]
      simp only [Option.some_inj, Prod.mk.injEq, true_and]
      ring
    · rw [if_neg h, if_neg h]
  · intro sentences s q hmem
    unfold scoreSentences at hmem
    rw [List.mem_filterMap] at hmem
    obtain ⟨p, _, he⟩ := hmem
    by_cases h : 5 ≤ (pyWords p.2).length
    · rw [if_pos h] at he
      simp only [Option.some_inj, Prod.mk.injEq] at he
      rw [← he.1]
      exact h
    · rw [if_neg h] at he
      exact absurd he (by simp)
  · intro sentences n
    exact List.Pairwise.sublist (List.take_sublist n _)
      (List.sorted_insertionSort scoreGe (scoreSentences sentences))

/-- C4 witness: the first sentence of the concrete example scores 1 and is
indeed admitted with at least five words. -/
theorem c4_key_point_scoring_witness :
    5 ≤ (pyWords "alpha b c d e f g h i j k l m n o p q r s t").length :=
  c4_key_point_scoring.2.1
    ["alpha b c d e f g h i j k l m n o p q r s t", "x y z",
      "gamma b c d e f g h i j k l m n o p q r s t"]
    "alpha b c d e f g h i j k l m n o p q r s t" 1 (by decide)

theorem clamp01_bounds (x : ℚ) : 0 ≤ min 1 (max 0 x) ∧ min 1 (max 0 x) ≤ 1 :=
  ⟨le_min (by norm_num) (le_max_left 0 x), min_le_left 1 _⟩

/-- C5: the quality score always lies in [0, 1]; a failing ROUGE computation
yields the neutral default 0.5; and on an overlap success with a non-empty
original it equals `clamp(0.7 * rouge_f1_blend + 0.3 * length_penalty, 0, 1)`
with `length_penalty = clamp(1 - 2 * |ratio - 0.1|, 0, 1)`. -/
theorem c5_quality_score (rouge : String → String → Except String (ℚ × ℚ))
    (original summary : String) :
    (0 ≤ calculate_quality_score rouge original summary ∧
      calculate_quality_score rouge original summary ≤ 1) ∧
    (∀ e, rouge original summary = Except.error e →
      calculate_quality_score rouge original summary = 1 / 2) ∧
    (∀ r1 rL, rouge original summary = Except.ok (r1, rL) →
      (pyWords original).length ≠ 0 →
      calculate_quality_score rouge original summary =
        min 1 (max 0 ((7 / 10) * ((r1 + rL) / 2) +
          (3 / 10) * max 0 (min 1 (1 - 2 * |((pyWords summary).length : ℚ) /
            ((pyWords original).length : ℚ) - 1 / 10|))))) := by
  refine ⟨?_, ?_, ?_⟩
  · unfold calculate_quality_score
    split
    · norm_num
    · dsimp only
      split
      · norm_num
      · exact clamp01_bounds _
  · intro e he
    unfold calculate_quality_score
    rw [he]
  · intro r1 rL hok h0
    unfold calculate_quality_score
    rw [hok]
    dsimp only
    rw [if_neg h0]
    rw [mul_comm (|((pyWords summary).length : ℚ) /
        ((pyWords original).length : ℚ) - 1 / 10|) 2,
      mul_comm ((r1 + rL) / 2) ((7 : ℚ) / 10),
      mul_comm (max 0 (min 1 (1 - 2 * |((pyWords summary).length : ℚ) /
        ((pyWords original).length : ℚ) - 1 / 10|))) ((3 : ℚ) / 10)]

/-- C5 witness: a concrete failing overlap scorer yields 0.5, and a concrete
succeeding one yields the clamp formula. -/
theorem c5_quality_score_witness :
    calculate_quality_score (fun _ _ => Except.error "rouge failed") "a b" "a" = 1 / 2 ∧
      calculate_quality_score (fun _ _ => Except.ok (1, 1)) "a b c d e f g h i j" "a b" =
        min 1 (max 0 ((7 / 10) * (((1 : ℚ) + 1) / 2) +
          (3 / 10) * max 0 (min 1 (1 - 2 * |((pyWords "a b").length : ℚ) /
            ((pyWords "a b c d e f g h i j").length : ℚ) - 1 / 10|)))) :=
  ⟨(c5_quality_score (fun _ _ => Except.error "rouge failed") "a b" "a").2.1
      "rouge failed" rfl,
    (c5_quality_score (fun _ _ => Except.ok (1, 1)) "a b c d e f g h i j" "a b").2.2
      1 1 rfl (by decide)⟩

theorem generate_summary_primary_ok (cfg : SummarizerConfig) (env : SummarizerEnv)
    (cacheDir : List (String × String)) (req : SummarizeRequest) (raw : String)
    (h : env.primary (fullTextOf req) (min (targetLengthOf req + 50) cfg.MAX_LENGTH)
      (max (targetLengthOf req - 20) cfg.MIN_LENGTH) = Except.ok raw) :
    generate_summary cfg env cacheDir req =
      { response := finishSummary env (cleanContentOf req) (detectedLangOf env req)
          (contentWordsOf req) raw cfg.MODEL_NAME
        primaryCalls := 1
        fallbackCalls := 0 } := by
  unfold generate_summary
  rw [h]

theorem generate_summary_fallback_ok (cfg : SummarizerConfig) (env : SummarizerEnv)
    (cacheDir : List (String × String)) (req : SummarizeRequest) (e raw : String)
    (hp : env.primary (fullTextOf req) (min (targetLengthOf req + 50) cfg.MAX_LENGTH)
      (max (targetLengthOf req - 20) cfg.MIN_LENGTH) = Except.error e)
    (hf : env.fallback (fullTextOf req) (targetLengthOf req + 30)
      (max (targetLengthOf req - 10) 20) = Except.ok raw) :
    generate_summary cfg env cacheDir req =
      { response := finishSummary env (cleanContentOf req) (detectedLangOf env req)
          (contentWordsOf req) raw cfg.FALLBACK_MODEL
        primaryCalls := 1
        fallbackCalls := 1 } := by
  unfold generate_summary
  rw [hp, hf]

theorem generate_summary_both_fail (cfg : SummarizerConfig) (env : SummarizerEnv)
    (cacheDir : List (String × String)) (req : SummarizeRequest) (e1 e2 : String)
    (hp : env.primary (fullTextOf req) (min (targetLengthOf req + 50) cfg.MAX_LENGTH)
      (max (targetLengthOf req - 20) cfg.MIN_LENGTH) = Except.error e1)
    (hf : env.fallback (fullTextOf req) (targetLengthOf req + 30)
      (max (targetLengthOf req - 10) 20) = Except.error e2) :
    generate_summary cfg env cacheDir req =
      { response := Except.error (500, "Summary generation failed: " ++ e2)
        primaryCalls := 1
        fallbackCalls := 1 } := by
  unfold generate_summary
  rw [hp, hf]

theorem finishSummary_summary (env : SummarizerEnv) (cc det : String) (cw : Nat)
    (raw mu : String) (r : SummarizeResponse)
    (h : finishSummary env cc det cw raw mu = Except.ok r) :
    r.summary = postprocessSummary raw ∧ r.model_used = mu := by
  unfold finishSummary at h
  split at h
  · exact absurd h (by simp)
  · injection h with h'
    subst h'
    exact ⟨rfl, rfl⟩

theorem finishSummary_ok (env : SummarizerEnv) (cc det : String) (cw : Nat)
    (raw mu : String) (h : cw ≠ 0) :
    ∃ r, finishSummary env cc det cw raw mu = Except.ok r ∧ r.model_used = mu := by
  unfold finishSummary
  rw [if_neg h]
  exact ⟨_, rfl, rfl⟩

/-- C10: every successful summarize response carries a summary that is
whitespace-trimmed and ends with a period, whichever pipeline produced it. -/
theorem c10_summary_postprocessing (cfg : SummarizerConfig) (env : SummarizerEnv)
    (cacheDir : List (String × String)) (req : SummarizeRequest)
    (r : SummarizeResponse)
    (h : (generate_summary cfg env cacheDir req).response = Except.ok r) :
    endsWithDot r.summary = true ∧ pyStrip r.summary = r.summary := by
  rcases hp : env.primary (fullTextOf req) (min (targetLengthOf req + 50) cfg.MAX_LENGTH)
      (max (targetLengthOf req - 20) cfg.MIN_LENGTH) with e1 | raw
  · rcases hf : env.fallback (fullTextOf req) (targetLengthOf req + 30)
        (max (targetLengthOf req - 10) 20) with e2 | raw
    · rw [generate_summary_both_fail cfg env cacheDir req e1 e2 hp hf] at h
      exact absurd h (by simp)
    · rw [generate_summary_fallback_ok cfg env cacheDir req e1 raw hp hf] at h
      obtain ⟨hs, _⟩ := finishSummary_summary env _ _ _ _ _ r h
      rw [hs]
      exact ⟨postprocessSummary_endsWithDot raw, pyStrip_postprocessSummary raw⟩
  · rw [generate_summary_primary_ok cfg env cacheDir req raw hp] at h
    obtain ⟨hs, _⟩ := finishSummary_summary env _ _ _ _ _ r h
    rw [hs]
    exact ⟨postprocessSummary_endsWithDot raw, pyStrip_postprocessSummary raw⟩

/-- A concrete environment for witnesses: the primary pipeline succeeds with a
raw summary that needs both trimming and the appended period; every external
metric is a constant. -/
def witnessEnv : SummarizerEnv :=
  { primary := fun _ _ _ => Except.ok "  a tidy summary"
    fallback := fun _ _ _ => Except.ok "fallback summary"
    rouge := fun _ _ => Except.error "offline"
    detectLang := fun _ => Except.ok "en"
    fleschEase := fun _ => 0
    fleschKincaid := fun _ => 0
    sentTokenize := fun _ => [] }

/-- A concrete request for witnesses. -/
def witnessRequest : SummarizeRequest :=
  { title := "Title", content := "some words in the body here", length_hint := 120,
    language := "en", style := "news" }

/-- Unwrap a summarize result for closed witness statements. -/
def getOkSummary (d : SummarizeResponse) :
    Except (Nat × String) SummarizeResponse → SummarizeResponse
  | Except.ok r => r
  | Except.error _ => d

/-- C10 witness: on the concrete request and environment the produced summary
ends with a period and is trimmed. -/
theorem c10_summary_postprocessing_witness :
    endsWithDot (getOkSummary (errorSummarizeResponse "")
        (generate_summary defaultSummarizerConfig witnessEnv [] witnessRequest).response).summary
      = true ∧
    pyStrip (getOkSummary (errorSummarizeResponse "")
        (generate_summary defaultSummarizerConfig witnessEnv [] witnessRequest).response).summary
      = (getOkSummary (errorSummarizeResponse "")
        (generate_summary defaultSummarizerConfig witnessEnv [] witnessRequest).response).summary :=
  c10_summary_postprocessing defaultSummarizerConfig witnessEnv [] witnessRequest _ (by rfl)

/-- C2: the primary pipeline is invoked exactly once; on its success the
fallback is never invoked and any produced response names the primary model;
on its failure the fallback is invoked exactly once and any produced response
names the fallback model; and when both pipelines fail the request fails with
a 500. -/
theorem c2_fallback_policy (cfg : SummarizerConfig) (env : SummarizerEnv)
    (cacheDir : List (String × String)) (req : SummarizeRequest) :
    ((∀ t a b, ∃ s, env.primary t a b = Except.ok s) →
      (generate_summary cfg env cacheDir req).primaryCalls = 1 ∧
        (generate_summary cfg env cacheDir req).fallbackCalls = 0 ∧
        (∀ r, (generate_summary cfg env cacheDir req).response = Except.ok r →
          r.model_used = cfg.MODEL_NAME) ∧
        (contentWordsOf req ≠ 0 →
          ∃ r, (generate_summary cfg env cacheDir req).response = Except.ok r ∧
            r.model_used = cfg.MODEL_NAME)) ∧
    ((∀ t a b, ∃ e, env.primary t a b = Except.error e) →
      (∀ t a b, ∃ s, env.fallback t a b = Except.ok s) →
      (generate_summary cfg env cacheDir req).primaryCalls = 1 ∧
        (generate_summary cfg env cacheDir req).fallbackCalls = 1 ∧
        (∀ r, (generate_summary cfg env cacheDir req).response = Except.ok r →
          r.model_used = cfg.FALLBACK_MODEL) ∧
        (contentWordsOf req ≠ 0 →
          ∃ r, (generate_summary cfg env cacheDir req).response = Except.ok r ∧
            r.model_used = cfg.FALLBACK_MODEL)) ∧
    ((∀ t a b, ∃ e, env.primary t a b = Except.error e) →
      (∀ t a b, ∃ e, env.fallback t a b = Except.error e) →
      ∃ msg, (generate_summary cfg env cacheDir req).response =
        Except.error (500, msg)) := by
  refine ⟨?_, ?_, ?_⟩
  · intro hp
    obtain ⟨s, hs⟩ := hp (fullTextOf req) (min (targetLengthOf req + 50) cfg.MAX_LENGTH)
      (max (targetLengthOf req - 20) cfg.MIN_LENGTH)
    rw [generate_summary_primary_ok cfg env cacheDir req s hs]
    refine ⟨rfl, rfl, ?_, ?_⟩
    · intro r hr
      exact (finishSummary_summary env _ _ _ _ _ r hr).2
    · intro hw
      exact finishSummary_ok env _ _ _ s cfg.MODEL_NAME hw
  · intro hp hf
    obtain ⟨e, he⟩ := hp (fullTextOf req) (min (targetLengthOf req + 50) cfg.MAX_LENGTH)
      (max (targetLengthOf req - 20) cfg.MIN_LENGTH)
    obtain ⟨s, hs⟩ := hf (fullTextOf req) (targetLengthOf req + 30)
      (max (targetLengthOf req - 10) 20)
    rw [generate_summary_fallback_ok cfg env cacheDir req e s he hs]
    refine ⟨rfl, rfl, ?_, ?_⟩
    · intro r hr
      exact (finishSummary_summary env _ _ _ _ _ r hr).2
    · intro hw
      exact finishSummary_ok env _ _ _ s cfg.FALLBACK_MODEL hw
  · intro hp hf
    obtain ⟨e1, he1⟩ := hp (fullTextOf req) (min (targetLengthOf req + 50) cfg.MAX_LENGTH)
      (max (targetLengthOf req - 20) cfg.MIN_LENGTH)
    obtain ⟨e2, he2⟩ := hf (fullTextOf req) (targetLengthOf req + 30)
      (max (targetLengthOf req - 10) 20)
    rw [generate_summary_both_fail cfg env cacheDir req e1 e2 he1 he2]
    exact ⟨_, rfl⟩

/-- Environment whose primary pipeline always fails and whose fallback always
succeeds. -/
def envPrimaryFail : SummarizerEnv :=
  { witnessEnv with primary := fun _ _ _ => Except.error "model exploded" }

/-- Environment in which both pipelines always fail. -/
def envBothFail : SummarizerEnv :=
  { envPrimaryFail with fallback := fun _ _ _ => Except.error "model exploded" }

/-- C2 witness: on the concrete request, a succeeding primary leaves the
fallback uninvoked and names the primary model; a failing primary invokes the
fallback exactly once and the response names the fallback model; two failing
pipelines yield a failed request. -/
theorem c2_fallback_policy_witness :
    (generate_summary defaultSummarizerConfig witnessEnv [] witnessRequest).fallbackCalls
        = 0 ∧
    (generate_summary defaultSummarizerConfig witnessEnv []
        witnessRequest).response.map (fun r => r.model_used)
      = Except.ok "facebook/bart-large-cnn" ∧
    (generate_summary defaultSummarizerConfig envPrimaryFail [] witnessRequest).primaryCalls
        = 1 ∧
    (generate_summary defaultSummarizerConfig envPrimaryFail [] witnessRequest).fallbackCalls
        = 1 ∧
    (generate_summary defaultSummarizerConfig envPrimaryFail []
        witnessRequest).response.map (fun r => r.model_used)
      = Except.ok "t5-small" ∧
    (generate_summary defaultSummarizerConfig envBothFail []
        witnessRequest).response.isOk = false := by
  have h1 := (c2_fallback_policy defaultSummarizerConfig witnessEnv [] witnessRequest).1
    (fun _ _ _ => ⟨_, rfl⟩)
  have h2 := (c2_fallback_policy defaultSummarizerConfig envPrimaryFail [] witnessRequest).2.1
    (fun _ _ _ => ⟨_, rfl⟩) (fun _ _ _ => ⟨_, rfl⟩)
  have h3 := (c2_fallback_policy defaultSummarizerConfig envBothFail [] witnessRequest).2.2
    (fun _ _ _ => ⟨_, rfl⟩) (fun _ _ _ => ⟨_, rfl⟩)
  have hw : contentWordsOf witnessRequest ≠ 0 := by decide
  obtain ⟨r1, hr1, hm1⟩ := h1.2.2.2 hw
  obtain ⟨r2, hr2, hm2⟩ := h2.2.2.2 hw
  obtain ⟨msg, hmsg⟩ := h3
  refine ⟨h1.2.1, ?_, h2.1, h2.2.1, ?_, ?_⟩
  · rw [hr1, Except.map, hm1]
    rfl
  · rw [hr2, Except.map, hm2]
    rfl
  · rw [hmsg]
    rfl

theorem create_subtitle_clips_nil (text : String) (d : ℚ)
    (h : ∀ s ∈ splitVideoSentences text, s.length ≤ 3) :
    create_subtitle_clips text d = [] := by
  by_cases hs : splitVideoSentences text = []
  · simp only [create_subtitle_clips, hs, if_pos]
  · simp only [create_subtitle_clips, hs, if_neg, if_false]
    rw [List.filterMap_eq_nil_iff]
    intro p hp
    have hmem : p.2 ∈ splitVideoSentences text := by
      have := List.mem_map_of_mem Prod.snd hp
      rwa [List.enum_map_snd] at this
    rw [if_neg (not_lt.mpr (h p.2 hmem))]

/-- C9: subtitle clips evenly time-slice the split sentences across the audio
duration in original order (`start = i * (d / N)`,
`end = min((i + 1) * (d / N), d)` for the `i`-th of `N` sentences); sentences
of length ≤ 3 characters produce no clip; when no sentence qualifies the
result is empty; the SRT entries carry exactly the same texts and timings; and
a render with an empty subtitle set still succeeds. -/
theorem c9_subtitle_timing (text : String) (audioDuration : ℚ) :
    (create_subtitle_clips text audioDuration =
      (splitVideoSentences text).enum.filterMap fun p =>
        if 3 < p.2.length then
          some { text := p.2
                 startTime := (p.1 : ℚ) *
                   (audioDuration / ((splitVideoSentences text).length : ℚ))
                 stopTime := min (((p.1 : ℚ) + 1) *
                   (audioDuration / ((splitVideoSentences text).length : ℚ)))
                   audioDuration }
        else none) ∧
    ((∀ s ∈ splitVideoSentences text, s.length ≤ 3) →
      create_subtitle_clips text audioDuration = []) ∧
    (((create_srt_subtitles text audioDuration).map fun e =>
        (e.text, e.startTime, e.stopTime)) =
      ((create_subtitle_clips text audioDuration).map fun c =>
        (c.text, c.startTime, c.stopTime))) ∧
    (∀ (env : VideoEnv) (outputDir : List (String × VideoArtifact))
        (srtDir : List String) (req : VideoRenderRequest) (d : ℚ),
      outputDir.lookup (videoCacheFileName req) = none →
      env.downloadAudio req.audio_url = Except.ok d →
      (∀ x, env.render x = Except.ok ()) →
      (∀ s ∈ splitVideoSentences req.summary_text, s.length ≤ 3) →
      ∃ r, (generate_video env outputDir srtDir req).response = Except.ok r ∧
        r.subtitle_segments = some 0) := by
  refine ⟨?_, create_subtitle_clips_nil text audioDuration, ?_, ?_⟩
  · by_cases hs : splitVideoSentences text = []
    · simp [create_subtitle_clips, hs]
    · simp only [create_subtitle_clips, hs, if_neg, if_false]
  · by_cases hs : splitVideoSentences text = []
    · simp [create_subtitle_clips, create_srt_subtitles, hs]
    · simp only [create_subtitle_clips, create_srt_subtitles, hs, if_neg, if_false]
      rw [List.map_filterMap, List.map_filterMap]
      apply List.filterMap_congr
      intro p _
      by_cases hl : 3 < p.2.length
      · rw [if_pos hl, if_pos hl]
        rfl
      · rw [if_neg hl, if_neg hl]
        rfl
  · intro env outputDir srtDir req d hlook hdl hrender hshort
    simp only [generate_video]
    rw [hlook, hdl]
    dsimp only
    rw [hrender]
    dsimp only
    refine ⟨_, rfl, ?_⟩
    dsimp only
    rw [create_subtitle_clips_nil req.summary_text _ hshort]
    rfl

/-- A concrete video environment for witnesses: downloads and rendering
succeed, every image loads. -/
def witnessVideoEnv : VideoEnv :=
  { downloadAudio := fun _ => Except.ok 10
    loadImage := fun _ => true
    render := fun _ => Except.ok () }

/-- A concrete render request whose summary splits into sentences of at most
three characters, so no subtitle clip qualifies. -/
def witnessVideoRequest : VideoRenderRequest :=
  { summary_text := "Hi. Ok.", audio_url := "http://host/audio.wav",
    title := "Video title", theme := "modern", duration := none, images := [] }

/-- C9 witness: on the short-sentence request the subtitle set is empty and
the render still succeeds, reporting zero subtitle segments. -/
theorem c9_subtitle_timing_witness :
    create_subtitle_clips "Hi. Ok." 10 = [] ∧
      (generate_video witnessVideoEnv [] [] witnessVideoRequest).response.map
        (fun r => r.subtitle_segments) = Except.ok (some 0) := by
  obtain ⟨r, hr, hseg⟩ := (c9_subtitle_timing "Hi. Ok." 10).2.2.2 witnessVideoEnv [] []
    witnessVideoRequest 10 rfl rfl (fun _ => rfl) (by decide)
  refine ⟨(c9_subtitle_timing "Hi. Ok." 10).2.1 (by decide), ?_⟩
  rw [hr, Except.map, hseg]

theorem collectTTSResults_error (rs : List (Except (Nat × String) TTSResponse)) :
    ∀ (i j : Nat) (e : Nat × String),
      rs[j]? = some (Except.error e) →
      (∀ k, k < j → ∃ r, rs[k]? = some (Except.ok r)) →
      collectTTSResults i rs =
        Except.error (500, "Failed to process text " ++ toString (i + j) ++ ": " ++ e.2) := by
  induction rs with
  | nil => intro i j e hj _; simp at hj
  | cons r rest ih =>
    intro i j e hj hbefore
    cases j with
    | zero =>
      simp only [List.getElem?_cons_zero, Option.some_inj] at hj
      subst hj
      unfold collectTTSResults
      rfl
    | succ j' =>
      obtain ⟨rok, hok⟩ := hbefore 0 (Nat.succ_pos j')
      simp only [List.getElem?_cons_zero, Option.some_inj] at hok
      subst hok
      unfold collectTTSResults
      rw [ih (i + 1) j' e (by simpa using hj)
        (fun k hk => by simpa using hbefore (k + 1) (by omega))]
      have : i + 1 + j' = i + (j' + 1) := by omega
      rw [this]

/-- C3: the summarization batch returns one response per article in input
order, replacing each failed item by the placeholder error entry while other
items are unaffected; the speech batch instead aborts with a 500 at its first
failed item, returning no per-item results. -/
theorem c3_batch_isolation :
    (∀ (cfg : SummarizerConfig) (env : SummarizerEnv)
        (cacheDir : List (String × String)) (articles : List SummarizeRequest),
      articles.length ≤ 10 →
      ∃ rs, summarize_batch cfg env cacheDir articles = Except.ok rs ∧
        rs.length = articles.length ∧
        ∀ (i : Nat) (a : SummarizeRequest), articles[i]? = some a →
          (∀ e, (generate_summary cfg env cacheDir a).response = Except.error e →
            rs[i]? = some (errorSummarizeResponse e.2)) ∧
          (∀ r, (generate_summary cfg env cacheDir a).response = Except.ok r →
            rs[i]? = some r)) ∧
    (∀ (pre : Bool) (env : TTSEnv) (cacheDir : List (String × Audio))
        (texts : List String) (voiceId : String) (speed : ℚ) (j : Nat) (t : String)
        (e : Nat × String),
      texts.length ≤ 5 →
      texts[j]? = some t →
      (generate_speech pre env cacheDir (mkBatchTTSRequest t voiceId speed)).response =
        Except.error e →
      (∀ k tk, k < j → texts[k]? = some tk →
        ∃ r, (generate_speech pre env cacheDir
          (mkBatchTTSRequest tk voiceId speed)).response = Except.ok r) →
      batch_text_to_speech pre env cacheDir texts voiceId speed =
        Except.error (500, "Failed to process text " ++ toString j ++ ": " ++ e.2)) := by
  constructor
  · intro cfg env cacheDir articles hlen
    unfold summarize_batch
    rw [if_neg (not_lt.mpr hlen)]
    refine ⟨_, rfl, by simp, ?_⟩
    intro i a ha
    constructor
    · intro e he
      rw [List.getElem?_map, ha]
      simp only [Option.map_some']
      rw [he]
    · intro r hr
      rw [List.getElem?_map, ha]
      simp only [Option.map_some']
      rw [hr]
  · intro pre env cacheDir texts voiceId speed j t e hlen hj hfail hbefore
    unfold batch_text_to_speech
    rw [if_neg (not_lt.mpr hlen)]
    have := collectTTSResults_error (texts.map fun tx =>
      (generate_speech pre env cacheDir (mkBatchTTSRequest tx voiceId speed)).response)
      0 j e ?_ ?_
    · rw [this]
      rw [Nat.zero_add]
    · rw [List.getElem?_map, hj]
      simp only [Option.map_some']
      rw [hfail]
    · intro k hk
      have hklen : k < texts.length := by
        have : j < texts.length := by
          by_contra hcon
          rw [List.getElem?_eq_none (by omega)] at hj
          exact absurd hj (by simp)
        omega
      obtain ⟨r, hr⟩ := hbefore k texts[k] hk (List.getElem?_eq_getElem hklen)
      exact ⟨r, by rw [List.getElem?_map, List.getElem?_eq_getElem hklen]; simp [hr]⟩

/-- A summarize request on which `envMixedSummarizer` fails. -/
def witnessRequestBad : SummarizeRequest :=
  { title := "BAD", content := "bad words", length_hint := 120, language := "en",
    style := "news" }

/-- An environment whose pipelines fail exactly on the bad request's text. -/
def envMixedSummarizer : SummarizerEnv :=
  { witnessEnv with
    primary := fun t _ _ =>
      if t = fullTextOf witnessRequestBad then Except.error "boom"
      else Except.ok "  a tidy summary"
    fallback := fun t _ _ =>
      if t = fullTextOf witnessRequestBad then Except.error "boom"
      else Except.ok "fallback summary" }

/-- A TTS environment failing exactly on the text `"failtext"`. -/
def envTTSMixed : TTSEnv :=
  { tts := fun t =>
      if t = "failtext" then Except.error "engine down"
      else Except.ok { samples := [0], sampleRate := 22050 }
    post := fun samples _ _ _ _ => samples }

/-- C3 witness: a two-article summarize batch with a failing second article
still returns two responses, the second being the placeholder; a two-text
speech batch with a failing second text aborts with a 500. -/
theorem c3_batch_isolation_witness :
    (summarize_batch defaultSummarizerConfig envMixedSummarizer []
        [witnessRequest, witnessRequestBad]).map (fun rs => rs.length) =
      Except.ok 2 ∧
    (summarize_batch defaultSummarizerConfig envMixedSummarizer []
        [witnessRequest, witnessRequestBad]).map (fun rs => rs[1]?) =
      Except.ok (some (errorSummarizeResponse "Summary generation failed: boom")) ∧
    batch_text_to_speech true envTTSMixed [] ["ok text", "failtext"] "default" 1 =
      Except.error (500, "Failed to process text " ++ toString 1 ++ ": " ++
        "Speech generation failed: engine down") := by
  obtain ⟨rs, hb, hlen, hitem⟩ := c3_batch_isolation.1 defaultSummarizerConfig
    envMixedSummarizer [] [witnessRequest, witnessRequestBad] (by simp)
  have hbad := (hitem 1 witnessRequestBad rfl).1 (500, "Summary generation failed: boom")
    (by rfl)
  refine ⟨?_, ?_, ?_⟩
  · rw [hb, Except.map, hlen]
    rfl
  · rw [hb, Except.map, hbad]
  · apply c3_batch_isolation.2 true envTTSMixed [] ["ok text", "failtext"] "default" 1 1
      "failtext" (500, "Speech generation failed: engine down") (by simp) rfl (by rfl)
    intro k tk hk htk
    have hk0 : k = 0 := by omega
    subst hk0
    simp only [List.getElem?_cons_zero, Option.some_inj] at htk
    subst htk
    exact ⟨_, rfl⟩

/-- C1 amended: the speech and video handlers consult the content-addressed
cache before invoking their capability provider — a hit is served with
cache-hit metadata and no provider invocation, a miss invokes the provider and
stores the artifact under the key before responding.  The summarization
handler, by contrast, maintains no cache at all: its outcome never depends on
the cache directory state and the primary model is invoked on every request. -/
theorem c1_cache_before_provider :
    (∀ (pre : Bool) (env : TTSEnv) (cacheDir : List (String × Audio))
        (req : TTSRequest) (art : Audio),
      cacheDir.lookup (ttsCacheFileName pre req) = some art →
      (generate_speech pre env cacheDir req).ttsCalls = 0 ∧
        (generate_speech pre env cacheDir req).cacheDir = cacheDir ∧
        ∃ r, (generate_speech pre env cacheDir req).response = Except.ok r ∧
          r.cached = true) ∧
    (∀ (pre : Bool) (env : TTSEnv) (cacheDir : List (String × Audio))
        (req : TTSRequest) (wav : Audio),
      cacheDir.lookup (ttsCacheFileName pre req) = none →
      env.tts (tts_preprocess_text pre req.text) = Except.ok wav →
      (generate_speech pre env cacheDir req).ttsCalls = 1 ∧
        ((generate_speech pre env cacheDir req).cacheDir.lookup
          (ttsCacheFileName pre req)).isSome = true ∧
        ∃ r, (generate_speech pre env cacheDir req).response = Except.ok r ∧
          r.cached = false) ∧
    (∀ (env : VideoEnv) (outputDir : List (String × VideoArtifact))
        (srtDir : List String) (req : VideoRenderRequest) (art : VideoArtifact),
      outputDir.lookup (videoCacheFileName req) = some art →
      (generate_video env outputDir srtDir req).renderCalls = 0 ∧
        (generate_video env outputDir srtDir req).outputDir = outputDir ∧
        ∃ r, (generate_video env outputDir srtDir req).response = Except.ok r ∧
          r.cached = true) ∧
    (∀ (env : VideoEnv) (outputDir : List (String × VideoArtifact))
        (srtDir : List String) (req : VideoRenderRequest) (d : ℚ),
      outputDir.lookup (videoCacheFileName req) = none →
      env.downloadAudio req.audio_url = Except.ok d →
      (∀ x, env.render x = Except.ok ()) →
      (generate_video env outputDir srtDir req).renderCalls = 1 ∧
        ((generate_video env outputDir srtDir req).outputDir.lookup
          (videoCacheFileName req)).isSome = true ∧
        ∃ r, (generate_video env outputDir srtDir req).response = Except.ok r ∧
          r.cached = false) ∧
    (∀ (cfg : SummarizerConfig) (env : SummarizerEnv)
        (cacheDir cacheDir2 : List (String × String)) (req : SummarizeRequest),
      (generate_summary cfg env cacheDir req).primaryCalls = 1 ∧
        generate_summary cfg env cacheDir req =
          generate_summary cfg env cacheDir2 req) := by
  refine ⟨?_, ?_, ?_, ?_, ?_⟩
  · intro pre env cacheDir req art hlook
    simp only [generate_speech]
    rw [hlook]
    exact ⟨rfl, rfl, _, rfl, rfl⟩
  · intro pre env cacheDir req wav hlook htts
    simp only [generate_speech]
    rw [hlook, htts]
    refine ⟨rfl, ?_, _, rfl, rfl⟩
    dsimp only
    rw [List.lookup]
    simp
  · intro env outputDir srtDir req art hlook
    simp only [generate_video]
    rw [hlook]
    exact ⟨rfl, rfl, _, rfl, rfl⟩
  · intro env outputDir srtDir req d hlook hdl hrender
    simp only [generate_video]
    rw [hlook, hdl]
    dsimp only
    rw [hrender]
    refine ⟨rfl, ?_, _, rfl, rfl⟩
    dsimp only
    rw [List.lookup]
    simp
  · intro cfg env cacheDir cacheDir2 req
    constructor
    · unfold generate_summary
      rcases env.primary (fullTextOf req) (min (targetLengthOf req + 50) cfg.MAX_LENGTH)
          (max (targetLengthOf req - 20) cfg.MIN_LENGTH) with e | raw
      · rcases env.fallback (fullTextOf req) (targetLengthOf req + 30)
            (max (targetLengthOf req - 10) 20) with e2 | raw2
        · rfl
        · rfl
      · rfl
    · rfl

/-- C1 counterexample: the summarization handler never consults a cache.
Even with the cache directory holding an artifact stored under the request
content's hash (the digest `calculate_content_hash` would produce, a function
the handlers never call), `generate_summary` still invokes the primary model,
and its outcome equals the outcome with an empty cache directory. -/
theorem c1_counterexample :
    (([(calculate_content_hash witnessRequest.content, "cached artifact")] :
        List (String × String)).lookup
      (calculate_content_hash witnessRequest.content)).isSome = true ∧
    (generate_summary defaultSummarizerConfig witnessEnv
      [(calculate_content_hash witnessRequest.content, "cached artifact")]
      witnessRequest).primaryCalls = 1 ∧
    generate_summary defaultSummarizerConfig witnessEnv
        [(calculate_content_hash witnessRequest.content, "cached artifact")]
        witnessRequest =
      generate_summary defaultSummarizerConfig witnessEnv [] witnessRequest :=
  ⟨by decide, rfl, rfl⟩

/-- A concrete TTS request for witnesses. -/
def witnessTTSRequest : TTSRequest :=
  { text := "hello world", voice_id := "default", speed := 1, pitch := 1, volume := 1,
    sample_rate := some 22050, format := "wav", language := "en", emotion := "neutral" }

/-- A concrete TTS environment for witnesses. -/
def witnessTTSEnv : TTSEnv :=
  { tts := fun _ => Except.ok { samples := [0, 0], sampleRate := 22050 }
    post := fun samples _ _ _ _ => samples }

/-- A concrete cached audio artifact for witnesses. -/
def witnessAudio : Audio :=
  { samples := [0], sampleRate := 22050 }

/-- C1 witness: concrete hits serve from the cache without invoking the
provider; concrete misses invoke it and populate the cache; the summarizer
invokes its model regardless. -/
theorem c1_cache_before_provider_witness :
    (generate_speech true witnessTTSEnv
        [(ttsCacheFileName true witnessTTSRequest, witnessAudio)]
        witnessTTSRequest).ttsCalls = 0 ∧
    (generate_speech true witnessTTSEnv [] witnessTTSRequest).ttsCalls = 1 ∧
    ((generate_speech true witnessTTSEnv [] witnessTTSRequest).cacheDir.lookup
      (ttsCacheFileName true witnessTTSRequest)).isSome = true ∧
    (generate_video witnessVideoEnv
        [(videoCacheFileName witnessVideoRequest, { duration := 9 })] []
        witnessVideoRequest).renderCalls = 0 ∧
    (generate_video witnessVideoEnv [] [] witnessVideoRequest).renderCalls = 1 ∧
    (generate_summary defaultSummarizerConfig witnessEnv [] witnessRequest).primaryCalls
      = 1 := by
  refine ⟨?_, ?_, ?_, ?_, ?_, ?_⟩
  · exact (c1_cache_before_provider.1 true witnessTTSEnv
      [(ttsCacheFileName true witnessTTSRequest, witnessAudio)] witnessTTSRequest
      witnessAudio (by rw [List.lookup]; simp)).1
  · exact (c1_cache_before_provider.2.1 true witnessTTSEnv [] witnessTTSRequest
      { samples := [0, 0], sampleRate := 22050 } rfl rfl).1
  · exact (c1_cache_before_provider.2.1 true witnessTTSEnv [] witnessTTSRequest
      { samples := [0, 0], sampleRate := 22050 } rfl rfl).2.1
  · exact (c1_cache_before_provider.2.2.1 witnessVideoEnv
      [(videoCacheFileName witnessVideoRequest, { duration := 9 })] []
      witnessVideoRequest { duration := 9 } (by rw [List.lookup]; simp)).1
  · exact (c1_cache_before_provider.2.2.2.1 witnessVideoEnv [] [] witnessVideoRequest
      10 rfl rfl (fun _ => rfl)).1
  · exact (c1_cache_before_provider.2.2.2.2 defaultSummarizerConfig witnessEnv [] []
      witnessRequest).1

/-- C7 amended: for the speech service, whitespace normalization (the
validator's `' '.join(text.split())` followed by `preprocess_text`) happens
before cache-key computation, so two texts with the same word sequence yield
the same key when the remaining semantic fields (voice, speed) agree.  For the
video service only the validator's end-whitespace strip precedes hashing, so
only requests equal after strip share a key. -/
theorem c7_normalization_before_key :
    (∀ (t1 t2 voice : String) (speed : ℚ) (pre : Bool),
      pyWords t1 = pyWords t2 →
      generate_file_hash (tts_preprocess_text pre (pyJoinSplit t1)) voice speed =
        generate_file_hash (tts_preprocess_text pre (pyJoinSplit t2)) voice speed) ∧
    (∀ (s1 s2 url theme title : String) (dur : Option ℚ) (imgs : List String),
      pyStrip s1 = pyStrip s2 →
      videoCacheFileName
          { summary_text := pyStrip s1, audio_url := url, title := title,
            theme := theme, duration := dur, images := imgs } =
        videoCacheFileName
          { summary_text := pyStrip s2, audio_url := url, title := title,
            theme := theme, duration := dur, images := imgs }) := by
  constructor
  · intro t1 t2 voice speed pre h
    have hinj : Function.Injective String.mk := fun a b hab =>
      show a = b from congrArg String.data hab
    have hsplit : splitW t1.data = splitW t2.data :=
      List.map_injective_iff.mpr hinj h
    rw [show pyJoinSplit t1 = pyJoinSplit t2 from by unfold pyJoinSplit; rw [hsplit]]
  · intro s1 s2 url theme title dur imgs h
    rw [h]

/-- C7 counterexample: two video render requests differing only in interior
whitespace of the summary text — which the validator's strip preserves — have
different cache-key contents, hence different MD5 cache keys; whitespace
normalization therefore does not precede key computation in the video
service. -/
theorem c7_counterexample :
    pyWords "hello  world news" = pyWords "hello world news" ∧
    pyStrip "hello  world news" = "hello  world news" ∧
    videoCacheFileName
        { summary_text := "hello  world news", audio_url := "http://h/a.wav",
          title := "Video title", theme := "modern", duration := none,
          images := [] } ≠
      videoCacheFileName
        { summary_text := "hello world news", audio_url := "http://h/a.wav",
          title := "Video title", theme := "modern", duration := none,
          images := [] } :=
  ⟨by decide, by decide, by decide⟩

/-- C7 witness: texts differing only in whitespace produce the same speech
cache key; summaries equal after strip produce the same video cache key. -/
theorem c7_normalization_before_key_witness :
    generate_file_hash (tts_preprocess_text true (pyJoinSplit "hello  world"))
        "default" 1 =
      generate_file_hash (tts_preprocess_text true (pyJoinSplit "hello world"))
        "default" 1 ∧
    videoCacheFileName
        { summary_text := pyStrip "hello world news ", audio_url := "http://h/a.wav",
          title := "Video title", theme := "modern", duration := none,
          images := [] } =
      videoCacheFileName
        { summary_text := pyStrip " hello world news", audio_url := "http://h/a.wav",
          title := "Video title", theme := "modern", duration := none,
          images := [] } :=
  ⟨c7_normalization_before_key.1 "hello  world" "hello world" "default" 1 true
      (by decide),
    c7_normalization_before_key.2 "hello world news " " hello world news"
      "http://h/a.wav" "modern" "Video title" none [] (by decide)⟩

theorem ite_singleton_eq_nil (c : Prop) [Decidable c] (x : FieldError) :
    (if c then [x] else ([] : List FieldError)) = [] ↔ ¬c := by
  split_ifs with h <;> simp [h]

theorem content_chain_eq_nil (a b c : Prop) [Decidable a] [Decidable b] [Decidable c]
    (x y z : FieldError) :
    (if a then [x] else if b then [y] else if c then [z]
      else ([] : List FieldError)) = [] ↔ ¬a ∧ ¬b ∧ ¬c := by
  split_ifs <;> simp_all

theorem guarded_ite_eq_nil (a b : Prop) [Decidable a] [Decidable b] (x : FieldError) :
    (if a then [] else if b then [x] else ([] : List FieldError)) = [] ↔ a ∨ ¬b := by
  split_ifs <;> simp_all

/-- C8: the request validators accept exactly the requests inside every
declared bound (so content exactly at a bound is accepted and one unit outside
is rejected); each violated bound contributes an error naming the offending
field; and a validation failure maps to the 400 client-error response, never a
server error. -/
theorem c8_validation_boundaries :
    (∀ r : SummarizeRequest, validateSummarizeRequest r = [] ↔
      (1 ≤ r.title.length ∧ r.title.length ≤ 200 ∧ 100 ≤ r.content.length ∧
        r.content.length ≤ 10000 ∧ 20 ≤ (pyWords r.content).length ∧
        30 ≤ r.length_hint ∧ r.length_hint ≤ 300 ∧ 2 ≤ r.language.length ∧
        r.language.length ≤ 2)) ∧
    (∀ r : SummarizeRequest,
      ((r.title.length < 1 ∨ 200 < r.title.length) →
        ∃ msg, ("title", msg) ∈ validateSummarizeRequest r) ∧
      ((r.content.length < 100 ∨ 10000 < r.content.length ∨
          (pyWords r.content).length < 20) →
        ∃ msg, ("content", msg) ∈ validateSummarizeRequest r) ∧
      ((r.length_hint < 30 ∨ 300 < r.length_hint) →
        ∃ msg, ("length_hint", msg) ∈ validateSummarizeRequest r) ∧
      ((r.language.length < 2 ∨ 2 < r.language.length) →
        ∃ msg, ("language", msg) ∈ validateSummarizeRequest r)) ∧
    (∀ r : TTSRequest, ttsValidationErrors r = [] ↔
      (1 ≤ r.text.length ∧ r.text.length ≤ 1000 ∧ pyStrip r.text ≠ "" ∧
        1 / 2 ≤ r.speed ∧ r.speed ≤ 2 ∧ 1 / 2 ≤ r.pitch ∧ r.pitch ≤ 2 ∧
        1 / 10 ≤ r.volume ∧ r.volume ≤ 2 ∧
        (∀ n, r.sample_rate = some n → 8000 ≤ n ∧ n ≤ 48000))) ∧
    (∀ r : TTSRequest,
      ((r.text.length < 1 ∨ 1000 < r.text.length ∨
          (1 ≤ r.text.length ∧ r.text.length ≤ 1000 ∧ pyStrip r.text = "")) →
        ∃ msg, ("text", msg) ∈ ttsValidationErrors r) ∧
      ((r.speed < 1 / 2 ∨ 2 < r.speed) →
        ∃ msg, ("speed", msg) ∈ ttsValidationErrors r) ∧
      ((r.volume < 1 / 10 ∨ 2 < r.volume) →
        ∃ msg, ("volume", msg) ∈ ttsValidationErrors r) ∧
      (∀ n, r.sample_rate = some n → (n < 8000 ∨ 48000 < n) →
        ∃ msg, ("sample_rate", msg) ∈ ttsValidationErrors r)) ∧
    (∀ (cfg : SummarizerConfig) (env : SummarizerEnv)
        (cacheDir : List (String × String)) (r : SummarizeRequest),
      validateSummarizeRequest r ≠ [] →
      summarize_endpoint cfg env cacheDir r =
        Except.error (validationError (validateSummarizeRequest r)) ∧
      (validationError (validateSummarizeRequest r)).status = 400) ∧
    (∀ (pre : Bool) (env : TTSEnv) (cacheDir : List (String × Audio))
        (r : TTSRequest),
      ttsValidationErrors r ≠ [] →
      tts_endpoint pre env cacheDir r =
        Except.error (validationError (ttsValidationErrors r)) ∧
      (validationError (ttsValidationErrors r)).status = 400) := by
  refine ⟨?_, ?_, ?_, ?_, ?_, ?_⟩
  · intro r
    unfold validateSummarizeRequest
    simp only [List.append_eq_nil, ite_singleton_eq_nil, content_chain_eq_nil,
      and_assoc]
    omega
  · intro r
    refine ⟨?_, ?_, ?_, ?_⟩
    · intro h
      rcases h with h | h
      · refine ⟨"ensure this value has at least 1 characters", ?_⟩
        unfold validateSummarizeRequest
        simp only [List.mem_append]
        refine Or.inl (Or.inl (Or.inl (Or.inl (Or.inl (Or.inl ?_)))))
        rw [if_pos h]
        simp
      · refine ⟨"ensure this value has at most 200 characters", ?_⟩
        unfold validateSummarizeRequest
        simp only [List.mem_append]
        refine Or.inl (Or.inl (Or.inl (Or.inl (Or.inl (Or.inr ?_)))))
        rw [if_pos h]
        simp
    · intro h
      unfold validateSummarizeRequest
      by_cases h1 : r.content.length < 100
      · refine ⟨"ensure this value has at least 100 characters", ?_⟩
        simp only [List.mem_append]
        refine Or.inl (Or.inl (Or.inl (Or.inl (Or.inr ?_))))
        rw [if_pos h1]
        simp
      · by_cases h2 : 10000 < r.content.length
        · refine ⟨"ensure this value has at most 10000 characters", ?_⟩
          simp only [List.mem_append]
          refine Or.inl (Or.inl (Or.inl (Or.inl (Or.inr ?_))))
          rw [if_neg h1, if_pos h2]
          simp
        · have h3 : (pyWords r.content).length < 20 := by omega
          refine ⟨"Content must have at least 20 words", ?_⟩
          simp only [List.mem_append]
          refine Or.inl (Or.inl (Or.inl (Or.inl (Or.inr ?_))))
          rw [if_neg h1, if_neg h2, if_pos h3]
          simp
    · intro h
      unfold validateSummarizeRequest
      rcases h with h | h
      · refine ⟨"ensure this value is greater than or equal to 30", ?_⟩
        simp only [List.mem_append]
        refine Or.inl (Or.inl (Or.inl (Or.inr ?_)))
        rw [if_pos h]
        simp
      · refine ⟨"ensure this value is less than or equal to 300", ?_⟩
        simp only [List.mem_append]
        refine Or.inl (Or.inl (Or.inr ?_))
        rw [if_pos h]
        simp
    · intro h
      unfold validateSummarizeRequest
      rcases h with h | h
      · refine ⟨"ensure this value has at least 2 characters", ?_⟩
        simp only [List.mem_append]
        refine Or.inl (Or.inr ?_)
        rw [if_pos h]
        simp
      · refine ⟨"ensure this value has at most 2 characters", ?_⟩
        simp only [List.mem_append]
        refine Or.inr ?_
        rw [if_pos h]
        simp
  · intro r
    unfold ttsValidationErrors
    rcases hsr : r.sample_rate with _ | n
    · simp only [List.append_eq_nil, ite_singleton_eq_nil, guarded_ite_eq_nil,
        not_lt, and_assoc]
      constructor
      · rintro ⟨h1, h2, h3, h4, h5, h6, h7, h8, h9, -⟩
        refine ⟨h1, h2, ?_, h4, h5, h6, h7, h8, h9, ?_⟩
        · rcases h3 with hc | hc
          · exact absurd hc (by omega)
          · exact hc
        · intro m hm
          exact absurd hm (by simp)
      · rintro ⟨h1, h2, h3, h4, h5, h6, h7, h8, h9, -⟩
        exact ⟨h1, h2, Or.inr h3, h4, h5, h6, h7, h8, h9, trivial⟩
    · simp only [List.append_eq_nil, ite_singleton_eq_nil, guarded_ite_eq_nil,
        not_lt, and_assoc]
      constructor
      · rintro ⟨h1, h2, h3, h4, h5, h6, h7, h8, h9, h10, h11⟩
        refine ⟨h1, h2, ?_, h4, h5, h6, h7, h8, h9, ?_⟩
        · rcases h3 with hc | hc
          · exact absurd hc (by omega)
          · exact hc
        · intro m hm
          injection hm with hm
          subst hm
          exact ⟨h10, h11⟩
      · rintro ⟨h1, h2, h3, h4, h5, h6, h7, h8, h9, h10⟩
        obtain ⟨ha, hb⟩ := h10 n rfl
        exact ⟨h1, h2, Or.inr h3, h4, h5, h6, h7, h8, h9, ha, hb⟩
  · intro r
    refine ⟨?_, ?_, ?_, ?_⟩
    · intro h
      unfold ttsValidationErrors
      by_cases ha : r.text.length < 1
      · refine ⟨"ensure this value has at least 1 characters", ?_⟩
        simp only [List.mem_append]
        refine Or.inl (Or.inl (Or.inl (Or.inl (Or.inl (Or.inl (Or.inl (Or.inl
          (Or.inl ?_))))))))
        rw [if_pos ha]
        simp
      · by_cases hb : 1000 < r.text.length
        · refine ⟨"ensure this value has at most 1000 characters", ?_⟩
          simp only [List.mem_append]
          refine Or.inl (Or.inl (Or.inl (Or.inl (Or.inl (Or.inl (Or.inl (Or.inl
            (Or.inr ?_))))))))
          rw [if_pos hb]
          simp
        · have hc : pyStrip r.text = "" := by
            rcases h with h | h | h
            · exact absurd h ha
            · exact absurd h hb
            · exact h.2.2
          refine ⟨"Text cannot be empty", ?_⟩
          simp only [List.mem_append]
          refine Or.inl (Or.inl (Or.inl (Or.inl (Or.inl (Or.inl (Or.inl
            (Or.inr ?_)))))))
          rw [if_neg (by omega), if_pos hc]
          simp
    · intro h
      unfold ttsValidationErrors
      rcases h with h | h
      · refine ⟨"ensure this value is greater than or equal to 0.5", ?_⟩
        simp only [List.mem_append]
        refine Or.inl (Or.inl (Or.inl (Or.inl (Or.inl (Or.inl (Or.inr ?_))))))
        rw [if_pos h]
        simp
      · refine ⟨"ensure this value is less than or equal to 2.0", ?_⟩
        simp only [List.mem_append]
        refine Or.inl (Or.inl (Or.inl (Or.inl (Or.inl (Or.inr ?_)))))
        rw [if_pos h]
        simp
    · intro h
      unfold ttsValidationErrors
      rcases h with h | h
      · refine ⟨"ensure this value is greater than or equal to 0.1", ?_⟩
        simp only [List.mem_append]
        refine Or.inl (Or.inl (Or.inr ?_))
        rw [if_pos h]
        simp
      · refine ⟨"ensure this value is less than or equal to 2.0", ?_⟩
        simp only [List.mem_append]
        refine Or.inl (Or.inr ?_)
        rw [if_pos h]
        simp
    · intro n hn h
      unfold ttsValidationErrors
      rw [hn]
      rcases h with h | h
      · refine ⟨"ensure this value is greater than or equal to 8000", ?_⟩
        simp only [List.mem_append]
        refine Or.inr (Or.inl ?_)
        rw [if_pos h]
        simp
      · refine ⟨"ensure this value is less than or equal to 48000", ?_⟩
        simp only [List.mem_append]
        refine Or.inr (Or.inr ?_)
        rw [if_pos h]
        simp
  · intro cfg env cacheDir r hv
    constructor
    · unfold summarize_endpoint
      cases hval : validateSummarizeRequest r with
      | nil => exact absurd hval hv
      | cons e es => rfl
    · rfl
  · intro pre env cacheDir r hv
    constructor
    · unfold tts_endpoint validateTTSRequest
      rw [if_neg hv]
    · rfl

/-- A summarize request sitting exactly on several declared bounds: title of
200 characters, `length_hint` of 30, content of 124 characters and 25 words. -/
def reqAtBounds : SummarizeRequest :=
  { title := String.mk (List.replicate 200 't')
    content := String.intercalate " " (List.replicate 25 "aaaa")
    length_hint := 30, language := "en", style := "news" }

/-- The same request with the title one unit below its minimum length. -/
def reqBelowTitle : SummarizeRequest :=
  { reqAtBounds with title := "" }

/-- A TTS request with the speed above its maximum. -/
def reqTTSBadSpeed : TTSRequest :=
  { witnessTTSRequest with speed := 5 / 2 }

set_option maxRecDepth 8000 in
/-- C8 witness: a request exactly at the bounds validates cleanly; one unit
outside, the offending field is named and the endpoint returns the 400
response. -/
theorem c8_validation_boundaries_witness :
    validateSummarizeRequest reqAtBounds = [] ∧
    "title" ∈ (validateSummarizeRequest reqBelowTitle).map Prod.fst ∧
    summarize_endpoint defaultSummarizerConfig witnessEnv [] reqBelowTitle =
      Except.error (validationError (validateSummarizeRequest reqBelowTitle)) ∧
    (validationError (validateSummarizeRequest reqBelowTitle)).status = 400 ∧
    "speed" ∈ (ttsValidationErrors reqTTSBadSpeed).map Prod.fst ∧
    tts_endpoint true witnessTTSEnv [] reqTTSBadSpeed =
      Except.error (validationError (ttsValidationErrors reqTTSBadSpeed)) ∧
    (validationError (ttsValidationErrors reqTTSBadSpeed)).status = 400 := by
  have h1 := (c8_validation_boundaries.1 reqAtBounds).mpr (by decide)
  have h2 := (c8_validation_boundaries.2.1 reqBelowTitle).1 (Or.inl (by decide))
  have h3 := c8_validation_boundaries.2.2.2.2.1 defaultSummarizerConfig witnessEnv []
    reqBelowTitle (by decide)
  have h4 := (c8_validation_boundaries.2.2.2.1 reqTTSBadSpeed).2.1 (Or.inr (by decide))
  have h5 := c8_validation_boundaries.2.2.2.2.2 true witnessTTSEnv [] reqTTSBadSpeed
    (by decide)
  obtain ⟨m2, hm2⟩ := h2
  obtain ⟨m4, hm4⟩ := h4
  exact ⟨h1, List.mem_map_of_mem Prod.fst hm2, h3.1, h3.2,
    List.mem_map_of_mem Prod.fst hm4, h5.1, h5.2⟩

end AutoNews
